import Mathlib

/-!
Shallow embedding of the Hostess & Club Night Job Board API
(`src/main.py`, `src/schemas.py`).

Conventions of the embedding:
* a BSON value is `BVal`: strings, ints, floats (as rationals), ObjectIds
  (as naturals below `16 ^ 24`), datetimes (as abstract ticks, rendered by
  `isoformat`), arrays and null;
* a Mongo document is an association list `Doc := List (String × BVal)` in
  insertion order, mirroring a Python `dict`;
* the document store adapter (`database.py`, imported by `main.py` but not
  part of the sources here) is modelled from the spec: `create_document`
  stamps a fresh store-generated `_id` and a `created_at` timestamp and
  returns the id as a string; `get_documents` filters by equality /
  list-membership conditions;
* HTTP errors raised via `HTTPException` become an `HTTPError` value in an
  `Except`.
-/

/-- BSON-style values stored in documents. `oid` models `bson.ObjectId`
(a 12-byte id, i.e. a natural below `16 ^ 24`), `dt` models a
`datetime.datetime` as an abstract tick. Floats are modelled as rationals. -/
inductive BVal where
  | str (s : String)
  | int (n : Int)
  | rat (q : Rat)
  | oid (n : Nat)
  | dt (t : Nat)
  | arr (xs : List BVal)
  | null
  deriving Repr

mutual

/-- Boolean equality of BSON values (structural). -/
def BVal.beq : BVal → BVal → Bool
  | .str a, .str b => a == b
  | .int a, .int b => a == b
  | .rat a, .rat b => a == b
  | .oid a, .oid b => a == b
  | .dt a, .dt b => a == b
  | .arr xs, .arr ys => BVal.beqList xs ys
  | .null, .null => true
  | _, _ => false

/-- Pointwise `BVal.beq` on lists. -/
def BVal.beqList : List BVal → List BVal → Bool
  | [], [] => true
  | x :: xs, y :: ys => BVal.beq x y && BVal.beqList xs ys
  | _, _ => false

end

mutual

theorem BVal.beq_iff : ∀ a b : BVal, BVal.beq a b = true ↔ a = b
  | .str a, b => by cases b <;> simp [BVal.beq]
  | .int a, b => by cases b <;> simp [BVal.beq]
  | .rat a, b => by cases b <;> simp [BVal.beq]
  | .oid a, b => by cases b <;> simp [BVal.beq]
  | .dt a, b => by cases b <;> simp [BVal.beq]
  | .arr xs, b => by
      cases b <;> simp [BVal.beq]
      exact BVal.beqList_iff xs _
  | .null, b => by cases b <;> simp [BVal.beq]

theorem BVal.beqList_iff : ∀ xs ys : List BVal, BVal.beqList xs ys = true ↔ xs = ys
  | [], ys => by cases ys <;> simp [BVal.beqList]
  | x :: xs, ys => by
      cases ys with
      | nil => simp [BVal.beqList]
      | cons y ys =>
          simp [BVal.beqList, BVal.beq_iff x y, BVal.beqList_iff xs ys]

end

instance : DecidableEq BVal := fun a b => decidable_of_iff _ (BVal.beq_iff a b)

instance : BEq BVal := ⟨BVal.beq⟩

instance : LawfulBEq BVal where
  eq_of_beq h := (BVal.beq_iff _ _).1 h
  rfl := (BVal.beq_iff _ _).2 rfl

/-- A Mongo document, as the insertion-ordered key/value association list of
a Python `dict`. -/
abbrev Doc := List (String × BVal)

/-- The `d.get(k)` on a Python dict: value of the first entry with key `k`. -/
def docGet (d : Doc) (k : String) : Option BVal :=
  (d.find? (fun p => p.1 == k)).map (fun p => p.2)

/-- The `d[k] = v` on a Python dict: update in place if the key exists,
otherwise append a new entry at the end. -/
def docSet (d : Doc) (k : String) (v : BVal) : Doc :=
  if d.any (fun p => p.1 == k) then
    d.map (fun p => if p.1 == k then (k, v) else p)
  else d ++ [(k, v)]

/-- The `del d[k]` on a Python dict. -/
def docErase (d : Doc) (k : String) : Doc :=
  d.filter (fun p => p.1 != k)

/-- Numeric value of a hexadecimal digit character. -/
def hexCharVal (c : Char) : Nat :=
  if c ≤ '9' then c.toNat - 48 else if c ≤ 'F' then c.toNat - 55 else c.toNat - 87

/-- Is `c` a hexadecimal digit (either case)? -/
def isHexChar (c : Char) : Bool :=
  ('0' ≤ c && c ≤ '9') || ('a' ≤ c && c ≤ 'f') || ('A' ≤ c && c ≤ 'F')

/-- The `w` lowercase hex digits of `n % 16 ^ w`, most significant first. -/
def hexRender : Nat → Nat → List Char
  | 0, _ => []
  | w + 1, n => hexRender w (n / 16) ++ [Nat.digitChar (n % 16)]

/-- The `str(ObjectId(n))`: the canonical 24-character lowercase hex form of a
store identifier (`bson.ObjectId.__str__`). -/
def oidToString (n : Nat) : String := ⟨hexRender 24 n⟩

/-- Fold a list of hex digit characters into the number they denote. -/
def parseHexChars (cs : List Char) : Nat :=
  cs.foldl (fun a c => a * 16 + hexCharVal c) 0

/-- The `ObjectId(s)` applied to a string: succeeds exactly on 24-character hex
strings (`bson.ObjectId.__init__` raises `InvalidId` otherwise). -/
def oidParse (s : String) : Option Nat :=
  if s.data.length = 24 && s.data.all isHexChar then some (parseHexChars s.data)
  else none

/-- The `datetime.isoformat`: renders a datetime tick as an ISO-8601 string. -/
def isoformat (t : Nat) : String := "1970-01-01T00:00:" ++ toString t

/-- The per-value conversion applied by the loop in `_serialize`
(src/main.py:31-38): `ObjectId`s and datetimes become strings, everything
else is untouched. -/
def serializeVal : BVal → BVal
  | .oid n => .str (oidToString n)
  | .dt t => .str (isoformat t)
  | v => v

/-- The `_serialize` (src/main.py:21-39): rename a store-generated `_id` to a
string field `id`, then stringify any `ObjectId` or datetime values. -/
def «_serialize» (doc : Doc) : Doc :=
  if doc.isEmpty then doc
  else
    let d : Doc :=
      match docGet doc "_id" with
      | some (.oid n) => docErase (docSet doc "id" (.str (oidToString n))) "_id"
      | _ => doc
    d.map (fun p => (p.1, serializeVal p.2))

/-- The four collections used by the API. -/
inductive Coll where
  | model
  | club
  | gig
  | application
  deriving Repr, DecidableEq

/-- The document store: one insertion-ordered list of documents per
collection, plus the generator state for fresh ids and timestamps. -/
structure Store where
  model : List Doc
  club : List Doc
  gig : List Doc
  application : List Doc
  nextId : Nat
  clock : Nat
  deriving Repr, DecidableEq

def Store.coll (s : Store) : Coll → List Doc
  | .model => s.model
  | .club => s.club
  | .gig => s.gig
  | .application => s.application

def Store.setColl (s : Store) : Coll → List Doc → Store
  | .model, l => { s with model := l }
  | .club, l => { s with club := l }
  | .gig, l => { s with gig := l }
  | .application, l => { s with application := l }

/-- Modelled from the spec: `database.py` (not under src/) provides
`create_document(collection, data)`, which inserts the validated record as a
document with a store-generated `_id` and a `created_at` timestamp and
returns the new id as a string (spec §2 "insert(collection, document) ->
id", §3 "Identity is the storage engine generated identifier, surfaced to
clients as a string", and "sort-by-recency relies on a separate
`created_at` field"). -/
def create_document (s : Store) (c : Coll) (body : Doc) : String × Store :=
  let doc : Doc := ("_id", BVal.oid s.nextId) :: (body ++ [("created_at", BVal.dt s.clock)])
  (oidToString s.nextId,
    { s.setColl c (s.coll c ++ [doc]) with nextId := s.nextId + 1, clock := s.clock + 1 })

/-- A filter condition on one field: plain equality or `$in` membership. -/
inductive QCond where
  | eqv (v : BVal)
  | isin (vs : List BVal)
  deriving Repr, DecidableEq

/-- A Mongo filter document, as built by the list endpoints. -/
abbrev Query := List (String × QCond)

/-- Whether field `k` of document `d` satisfies one filter condition
(Mongo equality / `$in` semantics; `$in` on an array field matches when any
element of the field is among the listed values). -/
def condMatches (d : Doc) (k : String) : QCond → Bool
  | .eqv v => docGet d k == some v
  | .isin vs =>
      match docGet d k with
      | some (.arr xs) => xs.any (fun x => vs.any (fun v => x == v))
      | some w => vs.any (fun v => w == v)
      | none => false

/-- Whether document `d` satisfies every condition of filter `q`. -/
def docMatches (d : Doc) (q : Query) : Bool :=
  q.all (fun p => condMatches d p.1 p.2)

/-- Modelled from the spec: the function `get_documents(collection,
query)` of `database.py` returns the documents of the collection matching the filter, in
insertion order (spec §2 "find(collection, filter) -> list<document>",
§4.2 "builds an equality filter ... and passes it to the store
unmodified"). -/
def get_documents (docs : List Doc) (q : Query) : List Doc :=
  docs.filter (fun d => docMatches d q)

/-- An HTTP error raised via `HTTPException`. -/
structure HTTPError where
  status : Nat
  detail : String
  deriving Repr, DecidableEq

/-- The `BVal` of a pydantic `Optional[str]` on `model_dump`. -/
def optStr : Option String → BVal
  | some s => .str s
  | none => .null

/-- The `BVal` of a pydantic `Optional[int]` on `model_dump`. -/
def optInt : Option Int → BVal
  | some n => .int n
  | none => .null

/-- The `BVal` of a pydantic `Optional[float]` on `model_dump`. -/
def optRat : Option Rat → BVal
  | some q => .rat q
  | none => .null

/-- The `BVal` of a pydantic `Optional[datetime]` on `model_dump`. -/
def optDt : Option Nat → BVal
  | some t => .dt t
  | none => .null

/-- The `BVal` of a pydantic `List[str]` on `model_dump`. -/
def strArr (l : List String) : BVal := .arr (l.map .str)

/-- Inbound JSON body for the `Model` schema (src/schemas.py:45-58).
The outer `Option` is presence of the key in the JSON object; for
`Optional[...]` fields the inner `Option` is JSON `null`. -/
structure ModelPayload where
  name : Option String
  city : Option String
  bio : Option (Option String) := none
  experience_years : Option (Option Int) := none
  hourly_rate : Option (Option Rat) := none
  skills : Option (List String) := none
  photos : Option (List String) := none
  instagram : Option (Option String) := none
  phone : Option (Option String) := none
  deriving Repr, DecidableEq

/-- A `Model` record that passed validation (src/schemas.py:45-58). -/
structure ModelRecord where
  name : String
  city : String
  bio : Option String
  experience_years : Option Int
  hourly_rate : Option Rat
  skills : List String
  photos : List String
  instagram : Option String
  phone : Option String
  deriving Repr, DecidableEq

/-- Offending fields of a `Model` payload, in field order: `name` and
`city` are required, `experience_years` must lie in `0..50` when given
(`ge=0, le=50`), `hourly_rate` must be nonnegative when given (`ge=0`).
Each check reads only its own field. -/
def modelErrors (p : ModelPayload) : List String :=
  (if p.name.isNone then ["name"] else []) ++
  (if p.city.isNone then ["city"] else []) ++
  (match p.experience_years with
   | some (some n) => if 0 ≤ n ∧ n ≤ 50 then [] else ["experience_years"]
   | _ => []) ++
  (match p.hourly_rate with
   | some (some q) => if 0 ≤ q then [] else ["hourly_rate"]
   | _ => [])

/-- The validated value of a `Model` payload: absent optional fields take
their declared defaults (`experience_years` 0, lists empty, the rest
`None`). Required fields are only read when validation succeeded. -/
def ModelPayload.value (p : ModelPayload) : ModelRecord where
  name := p.name.getD ""
  city := p.city.getD ""
  bio := (p.bio.getD none)
  experience_years := p.experience_years.getD (some 0)
  hourly_rate := p.hourly_rate.getD none
  skills := p.skills.getD []
  photos := p.photos.getD []
  instagram := p.instagram.getD none
  phone := p.phone.getD none

/-- The `Model(**payload)`: pydantic validation of a talent profile. -/
def modelValidate (p : ModelPayload) : Except (List String) ModelRecord :=
  match modelErrors p with
  | [] => .ok p.value
  | errs => .error errs

/-- The `model_dump()` of a validated `Model`, in field declaration order. -/
def ModelRecord.toDoc (r : ModelRecord) : Doc :=
  [("name", .str r.name), ("city", .str r.city), ("bio", optStr r.bio),
   ("experience_years", optInt r.experience_years),
   ("hourly_rate", optRat r.hourly_rate), ("skills", strArr r.skills),
   ("photos", strArr r.photos), ("instagram", optStr r.instagram),
   ("phone", optStr r.phone)]

/-- Inbound JSON body for the `Club` schema (src/schemas.py:60-69). -/
structure ClubPayload where
  name : Option String
  city : Option String
  contact_name : Option (Option String) := none
  contact_email : Option (Option String) := none
  contact_phone : Option (Option String) := none
  deriving Repr, DecidableEq

/-- A `Club` record that passed validation. -/
structure ClubRecord where
  name : String
  city : String
  contact_name : Option String
  contact_email : Option String
  contact_phone : Option String
  deriving Repr, DecidableEq

/-- Offending fields of a `Club` payload: `name` and `city` are required;
no other constraint exists. -/
def clubErrors (p : ClubPayload) : List String :=
  (if p.name.isNone then ["name"] else []) ++
  (if p.city.isNone then ["city"] else [])

/-- The validated value of a `Club` payload. -/
def ClubPayload.value (p : ClubPayload) : ClubRecord where
  name := p.name.getD ""
  city := p.city.getD ""
  contact_name := p.contact_name.getD none
  contact_email := p.contact_email.getD none
  contact_phone := p.contact_phone.getD none

/-- The `Club(**payload)`: pydantic validation of a venue. -/
def clubValidate (p : ClubPayload) : Except (List String) ClubRecord :=
  match clubErrors p with
  | [] => .ok p.value
  | errs => .error errs

/-- The `model_dump()` of a validated `Club`. -/
def ClubRecord.toDoc (r : ClubRecord) : Doc :=
  [("name", .str r.name), ("city", .str r.city),
   ("contact_name", optStr r.contact_name),
   ("contact_email", optStr r.contact_email),
   ("contact_phone", optStr r.contact_phone)]

/-- Inbound JSON body for the `Gig` schema (src/schemas.py:71-85).
`spots` is a non-optional `int` with default 1, so its payload slot is
present-or-absent only. -/
structure GigPayload where
  title : Option String
  club_name : Option String
  city : Option String
  date : Option String
  location : Option (Option String) := none
  pay : Option (Option String) := none
  dress_code : Option (Option String) := none
  requirements : Option (List String) := none
  spots : Option Int := none
  notes : Option (Option String) := none
  deriving Repr, DecidableEq

/-- A `Gig` record that passed validation. -/
structure GigRecord where
  title : String
  club_name : String
  city : String
  date : String
  location : Option String
  pay : Option String
  dress_code : Option String
  requirements : List String
  spots : Int
  notes : Option String
  deriving Repr, DecidableEq

/-- Offending fields of a `Gig` payload, in field order: `title`,
`club_name`, `city`, `date` are required and `spots` must be at least 1
when given (`ge=1`). Each check reads only its own field. -/
def gigErrors (p : GigPayload) : List String :=
  (if p.title.isNone then ["title"] else []) ++
  (if p.club_name.isNone then ["club_name"] else []) ++
  (if p.city.isNone then ["city"] else []) ++
  (if p.date.isNone then ["date"] else []) ++
  (match p.spots with
   | some n => if 1 ≤ n then [] else ["spots"]
   | none => [])

/-- The validated value of a `Gig` payload: `requirements` defaults to the
empty list and `spots` to 1. -/
def GigPayload.value (p : GigPayload) : GigRecord where
  title := p.title.getD ""
  club_name := p.club_name.getD ""
  city := p.city.getD ""
  date := p.date.getD ""
  location := p.location.getD none
  pay := p.pay.getD none
  dress_code := p.dress_code.getD none
  requirements := p.requirements.getD []
  spots := p.spots.getD 1
  notes := p.notes.getD none

/-- The `Gig(**payload)`: pydantic validation of a gig posting. -/
def gigValidate (p : GigPayload) : Except (List String) GigRecord :=
  match gigErrors p with
  | [] => .ok p.value
  | errs => .error errs

/-- The `model_dump()` of a validated `Gig`. -/
def GigRecord.toDoc (r : GigRecord) : Doc :=
  [("title", .str r.title), ("club_name", .str r.club_name),
   ("city", .str r.city), ("date", .str r.date),
   ("location", optStr r.location), ("pay", optStr r.pay),
   ("dress_code", optStr r.dress_code),
   ("requirements", strArr r.requirements), ("spots", .int r.spots),
   ("notes", optStr r.notes)]

/-- Inbound JSON body for the `Application` schema (src/schemas.py:87-96). -/
structure ApplicationPayload where
  gig_id : Option String
  model_id : Option String
  message : Option (Option String) := none
  status : Option String := none
  applied_at : Option (Option Nat) := none
  deriving Repr, DecidableEq

/-- An `Application` record that passed validation. -/
structure ApplicationRecord where
  gig_id : String
  model_id : String
  message : Option String
  status : String
  applied_at : Option Nat
  deriving Repr, DecidableEq

/-- Offending fields of an `Application` payload: `gig_id` and `model_id`
are required strings; no other constraint exists. -/
def applicationErrors (p : ApplicationPayload) : List String :=
  (if p.gig_id.isNone then ["gig_id"] else []) ++
  (if p.model_id.isNone then ["model_id"] else [])

/-- The validated value of an `Application` payload: `status` defaults to
`"pending"`. -/
def ApplicationPayload.value (p : ApplicationPayload) : ApplicationRecord where
  gig_id := p.gig_id.getD ""
  model_id := p.model_id.getD ""
  message := p.message.getD none
  status := p.status.getD "pending"
  applied_at := p.applied_at.getD none

/-- The `Application(**payload)`: pydantic validation of an application. -/
def applicationValidate (p : ApplicationPayload) : Except (List String) ApplicationRecord :=
  match applicationErrors p with
  | [] => .ok p.value
  | errs => .error errs

/-- The `model_dump()` of a validated `Application`. -/
def ApplicationRecord.toDoc (r : ApplicationRecord) : Doc :=
  [("gig_id", .str r.gig_id), ("model_id", .str r.model_id),
   ("message", optStr r.message), ("status", .str r.status),
   ("applied_at", optDt r.applied_at)]

/-- The filter contributed by an optional `city` query parameter:
`{"city": city} if city else {}` — Python truthiness drops both `None` and
the empty string. -/
def cityQuery (city : Option String) : Query :=
  match city with
  | some c => if c.isEmpty then [] else [("city", QCond.eqv (.str c))]
  | none => []

/-- The `create_model` (src/main.py:451-454): insert the validated profile,
answering `{"id": new_id}`. -/
def create_model (payload : ModelRecord) (s : Store) : String × Store :=
  create_document s .model payload.toDoc

/-- The `list_models` (src/main.py:457-465): equality filter on `city`, `$in`
membership filter on `skills`, both dropped when absent or empty, then
serialize each match. -/
def list_models (city skill : Option String) (s : Store) : List Doc :=
  let query : Query :=
    cityQuery city ++
    (match skill with
     | some k => if k.isEmpty then [] else [("skills", QCond.isin [.str k])]
     | none => [])
  (get_documents s.model query).map «_serialize»

/-- The `create_club` (src/main.py:469-472). -/
def create_club (payload : ClubRecord) (s : Store) : String × Store :=
  create_document s .club payload.toDoc

/-- The `list_clubs` (src/main.py:475-479). -/
def list_clubs (city : Option String) (s : Store) : List Doc :=
  (get_documents s.club (cityQuery city)).map «_serialize»

/-- The `create_gig` (src/main.py:483-486). -/
def create_gig (payload : GigRecord) (s : Store) : String × Store :=
  create_document s .gig payload.toDoc

/-- The sort key `d.get("created_at")` of src/main.py:494. Every stored
document carries a datetime `created_at` (stamped at insertion); the
embedding totalizes the key with tick 0 for absent or non-datetime values
(Python would raise a `TypeError` comparing `None` with a datetime). -/
def createdAtKey (d : Doc) : Nat :=
  match docGet d "created_at" with
  | some (.dt t) => t
  | _ => 0

/-- One insertion step of a stable descending sort by `createdAtKey`. -/
def insertByCreatedAtDesc (x : Doc) : List Doc → List Doc
  | [] => [x]
  | y :: ys =>
      if createdAtKey x < createdAtKey y then y :: insertByCreatedAtDesc x ys
      else x :: y :: ys

/-- The `docs.sort(key=lambda d: d.get("created_at"), reverse=True)`
(src/main.py:494): the Python sort is stable; with `reverse=True` it orders
by key descending, keeping the original order of equal keys. -/
def sortByCreatedAtDesc : List Doc → List Doc
  | [] => []
  | x :: xs => insertByCreatedAtDesc x (sortByCreatedAtDesc xs)

/-- The `list_gigs` (src/main.py:489-495): filter by `city`, sort newest first
by `created_at`, then serialize. The handler declares no other query
parameter. -/
def list_gigs (city : Option String) (s : Store) : List Doc :=
  let docs := get_documents s.gig (cityQuery city)
  (sortByCreatedAtDesc docs).map «_serialize»

/-- The query parameters a client may send to `GET /api/gigs`. FastAPI
ignores query parameters the handler does not declare, and `list_gigs`
(src/main.py:490) declares only `city`, so a supplied `role` parameter is
discarded at dispatch. -/
structure GigsQueryParams where
  city : Option String
  role : Option String
  deriving Repr, DecidableEq

/-- HTTP dispatch of `GET /api/gigs`: only the declared `city` parameter
reaches the handler. -/
def handle_list_gigs (q : GigsQueryParams) (s : Store) : List Doc :=
  list_gigs q.city s

/-- The `db[coll].find_one({"_id": ObjectId(n)})`. -/
def find_one_id (docs : List Doc) (n : Nat) : Option Doc :=
  docs.find? (fun d => docGet d "_id" == some (.oid n))

/-- The `apply_to_gig` (src/main.py:499-512): parse both referenced ids (an
unparsable id raises, answered with 400), look both documents up (a missing
one is answered with 404), then insert the application and answer
`{"id": new_id}`. -/
def apply_to_gig (payload : ApplicationRecord) (s : Store) :
    Except HTTPError (String × Store) :=
  match oidParse payload.gig_id, oidParse payload.model_id with
  | some g, some m =>
      match find_one_id s.gig g, find_one_id s.model m with
      | some _, some _ => .ok (create_document s .application payload.toDoc)
      | _, _ => .error ⟨404, "Gig or Model not found"⟩
  | _, _ => .error ⟨400, "Invalid gig_id or model_id"⟩

/-- The filter value used by `list_applications` for a reference id:
`str(ObjectId(v))` when `v` parses (normalizing it to the canonical
lowercase form), the raw string otherwise (src/main.py:518-527). -/
def refFilterValue (v : String) : String :=
  match oidParse v with
  | some n => oidToString n
  | none => v

/-- The filter contributed by one optional reference-id query parameter of
`list_applications`: dropped when absent or empty (Python truthiness),
otherwise an equality condition on the normalized-or-raw value. -/
def refQuery (field : String) (v : Option String) : Query :=
  match v with
  | some g => if g.isEmpty then [] else [(field, QCond.eqv (.str (refFilterValue g)))]
  | none => []

/-- The `list_applications` (src/main.py:515-529). -/
def list_applications (gig_id model_id : Option String) (s : Store) : List Doc :=
  let query : Query := refQuery "gig_id" gig_id ++ refQuery "model_id" model_id
  (get_documents s.application query).map «_serialize»

/-- The `demo_clubs` (src/main.py:119-126). -/
def demo_clubs : List ClubPayload :=
  [{ name := some "Blue Flame", city := some "Miami",
     contact_name := some (some "Luca"),
     contact_email := some (some "bookings@blueflame.miami") },
   { name := some "Neon Room", city := some "Las Vegas",
     contact_name := some (some "Jess"),
     contact_email := some (some "events@neonroom.vegas") },
   { name := some "Skyline", city := some "New York",
     contact_name := some (some "Adrian"),
     contact_email := some (some "host@skylinenyc.com") },
   { name := some "Echo", city := some "Los Angeles",
     contact_name := some (some "Maya"),
     contact_email := some (some "talent@echo.la") },
   { name := some "Aurora", city := some "Chicago",
     contact_name := some (some "Samir"),
     contact_email := some (some "vip@aurorachi.com") },
   { name := some "Harbor House", city := some "San Diego",
     contact_name := some (some "Riley"),
     contact_email := some (some "events@harborhouse.sd") }]

/-- The `demo_models` (src/main.py:136-298). -/
def demo_models : List ModelPayload :=
  [{ name := some "Ava Collins", city := some "Miami",
     bio := some (some "Sunset lover, fluent in Spanish, known for calm VIP table energy and immaculate timing."),
     experience_years := some (some 3), hourly_rate := some (some 55),
     skills := some ["VIP", "Bottle Service", "Promo", "Bilingual"],
     photos := some ["https://images.unsplash.com/photo-1524504388940-b1c1722653e1?w=800",
       "https://images.unsplash.com/photo-1517841905240-472988babdf9?w=800"],
     instagram := some (some "@ava.collins"), phone := some (some "+1-305-555-0172") },
   { name := some "Mia Lopez", city := some "New York",
     bio := some (some "Broadway-bright smile, concierge-level hostess focused on smooth check-ins and VIP care."),
     experience_years := some (some 4), hourly_rate := some (some 60),
     skills := some ["Hostess", "Bilingual", "Front Desk", "Greeter"],
     photos := some ["https://images.unsplash.com/photo-1544005313-94ddf0286df2?w=800",
       "https://images.unsplash.com/photo-1524503033411-c9566986fc8f?w=800"],
     instagram := some (some "@mialo.nyc"), phone := some (some "+1-212-555-0146") },
   { name := some "Sofia Rossi", city := some "Las Vegas",
     bio := some (some "Italian charm meets Vegas pace. Leads bottle parades, keeps teams synced during peak hours."),
     experience_years := some (some 5), hourly_rate := some (some 70),
     skills := some ["Bottle Service", "VIP", "Team Lead"],
     photos := some ["https://images.unsplash.com/photo-1494790108377-be9c29b29330?w=800",
       "https://images.unsplash.com/photo-1519345182560-3f2917c472ef?w=800"],
     instagram := some (some "@sofiarossi.vegas"), phone := some (some "+1-702-555-0112") },
   { name := some "Isabella Nguyen", city := some "Los Angeles",
     bio := some (some "Warm, camera-comfortable promo model with a knack for guest flow and product moments."),
     experience_years := some (some 2), hourly_rate := some (some 48),
     skills := some ["Promo", "Greeter", "Registration"],
     photos := some ["https://images.unsplash.com/photo-1554151228-14d9def656e4?w=800",
       "https://images.unsplash.com/photo-1520975682031-c93df73c5f21?w=800"],
     instagram := some (some "@isabellanguyen.la"), phone := some (some "+1-424-555-0130") },
   { name := some "Layla Patel", city := some "Chicago",
     bio := some (some "Detail-first VIP table host, excels with tech check-in systems and high-end service."),
     experience_years := some (some 6), hourly_rate := some (some 65),
     skills := some ["VIP", "Check-in", "Hostess"],
     photos := some ["https://images.unsplash.com/photo-1531123897727-8f129e1688ce?w=800",
       "https://images.unsplash.com/photo-1524502397800-2eeaad7c3fe5?w=800"],
     instagram := some (some "@layla.chi"), phone := some (some "+1-773-555-0168") },
   { name := some "Zoe Martin", city := some "Austin",
     bio := some (some "Hospitality heartbeat—keeps lines moving, samples flowing, smiles steady."),
     experience_years := some (some 3), hourly_rate := some (some 45),
     skills := some ["Promo", "Sampling", "Greeter"],
     photos := some ["https://images.unsplash.com/photo-1547425260-76bcadfb4f2c?w=800"],
     instagram := some (some "@zoe.in.atx"), phone := some (some "+1-512-555-0107") },
   { name := some "Emily Carter", city := some "San Diego",
     bio := some (some "Ocean-calm presence with sharp VIP instincts; guests remember the experience."),
     experience_years := some (some 4), hourly_rate := some (some 58),
     skills := some ["VIP", "Hostess", "Bottle Service"],
     photos := some ["https://images.unsplash.com/photo-1524504388940-b1c1722653e1?w=800"],
     instagram := some (some "@emilycsd"), phone := some (some "+1-619-555-0194") },
   { name := some "Aria Kim", city := some "Seattle",
     bio := some (some "Efficient front desk lead; bilingual in Korean/English; thrives in structured chaos."),
     experience_years := some (some 2), hourly_rate := some (some 44),
     skills := some ["Registration", "Greeter", "Bilingual"],
     photos := some ["https://images.unsplash.com/photo-1544006659-f0b21884ce1d?w=800"],
     instagram := some (some "@aria.kim"), phone := some (some "+1-206-555-0159") },
   { name := some "Victoria Adams", city := some "Houston",
     bio := some (some "Bottle show captain; keeps VIP narratives glowing and service crisp all night."),
     experience_years := some (some 7), hourly_rate := some (some 75),
     skills := some ["Bottle Service", "VIP", "Lead"],
     photos := some ["https://images.unsplash.com/photo-1539571696357-5a69c17a67c6?w=800"],
     instagram := some (some "@victoria.vip"), phone := some (some "+1-713-555-0123") },
   { name := some "Nina Petrova", city := some "Miami",
     bio := some (some "International promo model; elevates brand moments and guest delight in equal measure."),
     experience_years := some (some 3), hourly_rate := some (some 52),
     skills := some ["Model", "Promo", "VIP"],
     photos := some ["https://images.unsplash.com/photo-1544005316-04ae1f6bdfd3?w=800"],
     instagram := some (some "@nina.miami"), phone := some (some "+1-305-555-0188") },
   { name := some "Jasmine Ray", city := some "Los Angeles",
     bio := some (some "Storyteller smile; specializes in red-carpet style guest journeys and premium queues."),
     experience_years := some (some 5), hourly_rate := some (some 68),
     skills := some ["Hostess", "VIP", "Front Desk"],
     photos := some ["https://images.unsplash.com/photo-1527980965255-d3b416303d12?w=800"],
     instagram := some (some "@jasmine.ray"), phone := some (some "+1-213-555-0170") },
   { name := some "Camila Alvarez", city := some "Dallas",
     bio := some (some "Event-savvy bottle girl with choreography finesse for parades and special moments."),
     experience_years := some (some 4), hourly_rate := some (some 62),
     skills := some ["Bottle Service", "VIP", "Promo"],
     photos := some ["https://images.unsplash.com/photo-1520975916090-3105956fcd7a?w=800"],
     instagram := some (some "@camila.alv"), phone := some (some "+1-469-555-0190") }]

/-- The `demo_gigs` (src/main.py:308-429). -/
def demo_gigs : List GigPayload :=
  [{ title := some "Bottle Service Parade – Grand Opening",
     club_name := some "Blue Flame", city := some "Miami",
     date := some "Fri 10:00PM – 2:00AM", location := some (some "South Beach"),
     pay := some (some "$60/hr + tips + $100 peak bonus"),
     dress_code := some (some "All black chic, heels"),
     requirements := some ["Bottle service experience", "Comfortable leading parades", "Photo-friendly"],
     spots := some 4,
     notes := some (some "Peak bonus 11:30PM–1:30AM. Few-hour coverage available or whole night.") },
   { title := some "VIP Hostess – Celebrity Table Night",
     club_name := some "Neon Room", city := some "Las Vegas",
     date := some "Sat 9:00PM – 4:00AM", location := some (some "The Strip"),
     pay := some (some "$70/hr + tips"),
     dress_code := some (some "Elegant black dress, closed-toe heels"),
     requirements := some ["VIP check-in", "Guest seating", "Bilingual a plus"],
     spots := some 3,
     notes := some (some "Whole night preferred; peak hours 11PM–2AM.") },
   { title := some "Premium Check‑In & Greeter – Rooftop Sessions",
     club_name := some "Skyline", city := some "New York",
     date := some "Thu 7:00PM – 11:00PM", location := some (some "Midtown rooftop"),
     pay := some (some "$45/hr (flat)"),
     dress_code := some (some "Monochrome smart-casual"),
     requirements := some ["Registration tablets", "Line flow management", "Bilingual preferred"],
     spots := some 2,
     notes := some (some "Short 4‑hour shift; perfect for guestlist & QR scanning specialists.") },
   { title := some "Brand Promo Team – Sunset Launch",
     club_name := some "Echo", city := some "Los Angeles",
     date := some "Fri 6:00PM – 10:00PM", location := some (some "West Hollywood"),
     pay := some (some "$50/hr + merch + content credit"),
     dress_code := some (some "On‑brand wardrobe provided"),
     requirements := some ["Promo sampling", "On‑camera comfort", "Soft spoken story points"],
     spots := some 5,
     notes := some (some "Half‑night promo push; golden hour content capture included.") },
   { title := some "VIP Table Host – Champagne Service",
     club_name := some "Aurora", city := some "Chicago",
     date := some "Sat 10:00PM – 3:00AM", location := some (some "River North"),
     pay := some (some "$65/hr + tips"),
     dress_code := some (some "Black suit‑inspired dress or tailored set"),
     requirements := some ["High‑end service", "Table etiquette", "Composure under pressure"],
     spots := some 2,
     notes := some (some "Full‑night coverage strongly preferred.") },
   { title := some "Harbor Gala Hostess – Waterfront Soirée",
     club_name := some "Harbor House", city := some "San Diego",
     date := some "Sun 5:00PM – 10:00PM", location := some (some "Marina District"),
     pay := some (some "$55/hr + dinner"),
     dress_code := some (some "Coastal formal (navy/cream)"),
     requirements := some ["Seating charts", "Silent auction assist", "Warm guest greeting"],
     spots := some 3,
     notes := some (some "Event concludes by 10PM; content team onsite for red‑carpet arrivals.") },
   { title := some "Peak Hours Bottle Girl – DJ Residency",
     club_name := some "Blue Flame", city := some "Miami",
     date := some "Sat 11:00PM – 2:30AM", location := some (some "South Beach"),
     pay := some (some "$70/hr + tips (peak block)"),
     dress_code := some (some "All black with club accessories"),
     requirements := some ["Tray handling", "Sparkler safety", "Team coordination"],
     spots := some 6,
     notes := some (some "Few hours only – peak block assignment.") },
   { title := some "Concierge Host – Members Night",
     club_name := some "Neon Room", city := some "Las Vegas",
     date := some "Fri 8:00PM – 1:00AM", location := some (some "The Strip"),
     pay := some (some "$58/hr + loyalty bonus"),
     dress_code := some (some "Minimalist black, hair up"),
     requirements := some ["Member check‑in", "Table escorts", "Calm problem solving"],
     spots := some 2,
     notes := some (some "Clienteling focus; strong memory for names is a plus.") },
   { title := some "Door Hostess – Fashion Week Afterparty",
     club_name := some "Skyline", city := some "New York",
     date := some "Wed 9:00PM – 1:00AM", location := some (some "Chelsea"),
     pay := some (some "$60/hr (flat) + ride home"),
     dress_code := some (some "Black with metallic accent"),
     requirements := some ["Guestlist control", "PR coordination", "Photo call timing"],
     spots := some 4,
     notes := some (some "High‑profile crowd; discretion required.") },
   { title := some "VIP Bottle Service – Tech Summit After Dark",
     club_name := some "Echo", city := some "Los Angeles",
     date := some "Tue 8:30PM – 1:30AM", location := some (some "Downtown"),
     pay := some (some "$68/hr + tips + $75 closing bonus"),
     dress_code := some (some "Modern black, low‑profile heels"),
     requirements := some ["Bottle service", "Corporate crowd etiquette", "Pace management"],
     spots := some 5,
     notes := some (some "Whole night preferred; must be punctual and detail‑oriented.") }]

/-- One seeding loop of `seed_demo` (src/main.py:127-132, 299-304,
430-435): validate each demo payload, insert it on success, swallow any
failure (`except Exception: pass`), and count the successful inserts. -/
def seedLoop {α β : Type} (validate : α → Except (List String) β)
    (toDoc : β → Doc) (c : Coll) (ps : List α) (s : Store) : Nat × Store :=
  ps.foldl
    (fun acc p =>
      match validate p with
      | .ok r => (acc.1 + 1, (create_document acc.2 c (toDoc r)).2)
      | .error _ => acc)
    (0, s)

/-- The JSON body answered by `POST /api/seed` (src/main.py:437-447). -/
structure SeedResponse where
  models_before : Nat
  gigs_before : Nat
  clubs_before : Nat
  models_created : Nat
  gigs_created : Nat
  clubs_created : Nat
  total_models : Nat
  total_gigs : Nat
  total_clubs : Nat
  deriving Repr, DecidableEq

/-- The `seed_demo` (src/main.py:104-447): read the three collection counts,
then load the demo clubs, models and gigs, each list only when its
collection is below its threshold (6 clubs, 12 models, 10 gigs). -/
def seed_demo (s : Store) : SeedResponse × Store :=
  let model_count := s.model.length
  let gig_count := s.gig.length
  let club_count := s.club.length
  let clubsRes :=
    if club_count < 6 then seedLoop clubValidate ClubRecord.toDoc .club demo_clubs s
    else (0, s)
  let modelsRes :=
    if model_count < 12 then
      seedLoop modelValidate ModelRecord.toDoc .model demo_models clubsRes.2
    else (0, clubsRes.2)
  let gigsRes :=
    if gig_count < 10 then seedLoop gigValidate GigRecord.toDoc .gig demo_gigs modelsRes.2
    else (0, modelsRes.2)
  ({ models_before := model_count, gigs_before := gig_count,
     clubs_before := club_count, models_created := modelsRes.1,
     gigs_created := gigsRes.1, clubs_created := clubsRes.1,
     total_models := gigsRes.2.model.length, total_gigs := gigsRes.2.gig.length,
     total_clubs := gigsRes.2.club.length }, gigsRes.2)

/-! ### Lemmas about the dict operations and the serializer -/

theorem docGet_nil (k : String) : docGet [] k = none := rfl

theorem docGet_cons (p : String × BVal) (d : Doc) (k : String) :
    docGet (p :: d) k = if p.1 = k then some p.2 else docGet d k := by
  by_cases h : p.1 = k
  · rw [if_pos h]
    unfold docGet
    rw [List.find?_cons_of_pos _ (by simpa using h)]
    rfl
  · rw [if_neg h]
    unfold docGet
    rw [List.find?_cons_of_neg _ (by simpa using h)]

theorem docGet_mapVal (f : BVal → BVal) (d : Doc) (k : String) :
    docGet (d.map (fun p => (p.1, f p.2))) k = (docGet d k).map f := by
  induction d with
  | nil => rfl
  | cons p d ih =>
      rw [List.map_cons, docGet_cons, docGet_cons]
      by_cases h : p.1 = k
      · rw [if_pos h, if_pos h]
        rfl
      · rw [if_neg h, if_neg h, ih]

theorem docGet_append (d₁ d₂ : Doc) (k : String) :
    docGet (d₁ ++ d₂) k =
      match docGet d₁ k with
      | some v => some v
      | none => docGet d₂ k := by
  induction d₁ with
  | nil => rfl
  | cons p d ih =>
      rw [List.cons_append, docGet_cons, docGet_cons]
      by_cases h : p.1 = k
      · rw [if_pos h, if_pos h]
      · rw [if_neg h, if_neg h, ih]

theorem docGet_eq_none_of_not_any (d : Doc) (k : String)
    (h : ¬ d.any (fun p => p.1 == k) = true) : docGet d k = none := by
  unfold docGet
  rw [List.find?_eq_none.2]
  · rfl
  · intro x hx hpx
    exact h (List.any_eq_true.2 ⟨x, hx, hpx⟩)

theorem docGet_mapSet_self (d : Doc) (k : String) (v : BVal) :
    docGet (d.map (fun p => if p.1 == k then (k, v) else p)) k =
      if d.any (fun p => p.1 == k) then some v else none := by
  induction d with
  | nil => rfl
  | cons p d ih =>
      rw [List.map_cons, List.any_cons]
      by_cases h : p.1 = k
      · have hb : (p.1 == k) = true := by simpa using h
        rw [hb, if_pos rfl, docGet_cons, if_pos rfl, Bool.true_or, if_pos rfl]
      · have hb : (p.1 == k) = false := by simpa using h
        rw [hb, if_neg (by decide), docGet_cons, if_neg h, ih, Bool.false_or]

theorem docGet_set_self (d : Doc) (k : String) (v : BVal) :
    docGet (docSet d k v) k = some v := by
  unfold docSet
  by_cases hmem : d.any (fun p => p.1 == k) = true
  · rw [if_pos hmem, docGet_mapSet_self, if_pos hmem]
  · rw [if_neg hmem, docGet_append, docGet_eq_none_of_not_any d k hmem]
    rw [docGet_cons, if_pos rfl]

theorem docGet_mapSet_ne (d : Doc) (k k' : String) (v : BVal) (h : k' ≠ k) :
    docGet (d.map (fun p => if p.1 == k then (k, v) else p)) k' = docGet d k' := by
  induction d with
  | nil => rfl
  | cons p d ih =>
      rw [List.map_cons]
      by_cases hp : p.1 = k
      · have hb : (p.1 == k) = true := by simpa using hp
        rw [hb, if_pos rfl, docGet_cons, docGet_cons,
          if_neg (fun e => h e.symm), if_neg (fun e => h (hp.symm.trans e).symm)]
        exact ih
      · have hb : (p.1 == k) = false := by simpa using hp
        rw [hb, if_neg (by decide), docGet_cons, docGet_cons, ih]

theorem docGet_set_ne (d : Doc) (k k' : String) (v : BVal) (h : k' ≠ k) :
    docGet (docSet d k v) k' = docGet d k' := by
  unfold docSet
  by_cases hmem : d.any (fun p => p.1 == k) = true
  · rw [if_pos hmem]
    exact docGet_mapSet_ne d k k' v h
  · rw [if_neg hmem, docGet_append]
    cases hd : docGet d k' with
    | some w => rfl
    | none => rw [docGet_cons, if_neg (fun e => h e.symm), docGet_nil]

theorem docGet_erase_self (d : Doc) (k : String) :
    docGet (docErase d k) k = none := by
  unfold docErase docGet
  rw [List.find?_eq_none.2]
  · rfl
  · intro x hx
    have := (List.mem_filter.1 hx).2
    simp only [bne_iff_ne, ne_eq] at this
    simp [this]

theorem docGet_erase_ne (d : Doc) (k k' : String) (h : k' ≠ k) :
    docGet (docErase d k) k' = docGet d k' := by
  induction d with
  | nil => rfl
  | cons p d ih =>
      simp only [docErase] at ih ⊢
      rw [List.filter_cons]
      by_cases hp : p.1 = k
      · have hb : (p.1 != k) = false := by simp [hp]
        rw [hb, if_neg (by decide), docGet_cons,
          if_neg (fun e => h (hp.symm.trans e).symm), ih]
      · have hb : (p.1 != k) = true := by simp [hp]
        rw [hb, if_pos rfl, docGet_cons, docGet_cons, ih]

theorem serialize_eq_rename_map (doc : Doc) (n : Nat)
    (h : docGet doc "_id" = some (.oid n)) :
    «_serialize» doc =
      (docErase (docSet doc "id" (.str (oidToString n))) "_id").map
        (fun p => (p.1, serializeVal p.2)) := by
  have hne : doc ≠ [] := by
    intro e
    rw [e] at h
    exact Option.noConfusion h
  unfold «_serialize»
  rw [if_neg (by simpa using hne), h]

theorem serialize_eq_map_plain (doc : Doc)
    (h : ∀ n, docGet doc "_id" ≠ some (.oid n)) :
    «_serialize» doc = doc.map (fun p => (p.1, serializeVal p.2)) := by
  unfold «_serialize»
  by_cases he : doc = []
  · subst he; rfl
  · rw [if_neg (by simpa using he)]
    cases hd : docGet doc "_id" with
    | none => rfl
    | some v =>
        cases v with
        | oid n => exact absurd hd (h n)
        | str s => rfl
        | int n => rfl
        | rat q => rfl
        | dt t => rfl
        | arr xs => rfl
        | null => rfl

theorem serialize_get_id (doc : Doc) (n : Nat)
    (h : docGet doc "_id" = some (.oid n)) :
    docGet («_serialize» doc) "id" = some (.str (oidToString n)) := by
  rw [serialize_eq_rename_map doc n h, docGet_mapVal,
    docGet_erase_ne _ _ _ (by decide), docGet_set_self]
  rfl

theorem serialize_get_underscore_id (doc : Doc) (n : Nat)
    (h : docGet doc "_id" = some (.oid n)) :
    docGet («_serialize» doc) "_id" = none := by
  rw [serialize_eq_rename_map doc n h, docGet_mapVal, docGet_erase_self]
  rfl

theorem serialize_get_other (doc : Doc) (n : Nat) (k : String)
    (h : docGet doc "_id" = some (.oid n)) (h1 : k ≠ "_id") (h2 : k ≠ "id") :
    docGet («_serialize» doc) k = (docGet doc k).map serializeVal := by
  rw [serialize_eq_rename_map doc n h, docGet_mapVal,
    docGet_erase_ne _ _ _ h1, docGet_set_ne _ _ _ _ h2]

theorem serialize_get_plain (doc : Doc) (k : String)
    (h : ∀ n, docGet doc "_id" ≠ some (.oid n)) :
    docGet («_serialize» doc) k = (docGet doc k).map serializeVal := by
  rw [serialize_eq_map_plain doc h, docGet_mapVal]

/-! ### Hex identifier lemmas -/

theorem hexCharVal_digitChar : ∀ m : Nat, m < 16 → hexCharVal (Nat.digitChar m) = m := by
  decide

theorem parseHexChars_append (cs : List Char) (c : Char) :
    parseHexChars (cs ++ [c]) = parseHexChars cs * 16 + hexCharVal c := by
  unfold parseHexChars
  rw [List.foldl_append]
  rfl

theorem parseHexChars_hexRender : ∀ w n : Nat, parseHexChars (hexRender w n) = n % 16 ^ w := by
  intro w
  induction w with
  | zero =>
      intro n
      simp [hexRender, parseHexChars, Nat.pow_zero, Nat.mod_one]
  | succ w ih =>
      intro n
      rw [hexRender, parseHexChars_append, ih,
        hexCharVal_digitChar _ (Nat.mod_lt _ (by omega)),
        Nat.pow_succ, Nat.mul_comm (16 ^ w) 16, Nat.mod_mul]
      omega

theorem oidToString_inj (a b : Nat) (ha : a < 16 ^ 24) (hb : b < 16 ^ 24)
    (h : oidToString a = oidToString b) : a = b := by
  have hdata : hexRender 24 a = hexRender 24 b := congrArg String.data h
  have h2 := congrArg parseHexChars hdata
  rw [parseHexChars_hexRender, parseHexChars_hexRender,
    Nat.mod_eq_of_lt ha, Nat.mod_eq_of_lt hb] at h2
  exact h2

/-! ### Sorting lemmas (`list.sort(key=..., reverse=True)`) -/

theorem perm_insertByCreatedAtDesc (x : Doc) (l : List Doc) :
    (insertByCreatedAtDesc x l).Perm (x :: l) := by
  induction l with
  | nil => exact List.Perm.refl _
  | cons y ys ih =>
      unfold insertByCreatedAtDesc
      by_cases h : createdAtKey x < createdAtKey y
      · rw [if_pos h]
        exact (ih.cons y).trans (List.Perm.swap x y ys)
      · rw [if_neg h]

theorem perm_sortByCreatedAtDesc (l : List Doc) : (sortByCreatedAtDesc l).Perm l := by
  induction l with
  | nil => exact List.Perm.refl _
  | cons x xs ih =>
      exact (perm_insertByCreatedAtDesc x (sortByCreatedAtDesc xs)).trans (ih.cons x)

theorem pairwise_insertByCreatedAtDesc (x : Doc) (l : List Doc)
    (h : l.Pairwise (fun d e => createdAtKey e ≤ createdAtKey d)) :
    (insertByCreatedAtDesc x l).Pairwise (fun d e => createdAtKey e ≤ createdAtKey d) := by
  induction l with
  | nil => simp [insertByCreatedAtDesc]
  | cons y ys ih =>
      rcases List.pairwise_cons.1 h with ⟨hy, hys⟩
      unfold insertByCreatedAtDesc
      by_cases hlt : createdAtKey x < createdAtKey y
      · rw [if_pos hlt]
        refine List.pairwise_cons.2 ⟨?_, ih hys⟩
        intro z hz
        rcases List.mem_cons.1 ((perm_insertByCreatedAtDesc x ys).mem_iff.1 hz) with rfl | hzys
        · exact Nat.le_of_lt hlt
        · exact hy z hzys
      · rw [if_neg hlt]
        refine List.pairwise_cons.2 ⟨?_, h⟩
        intro z hz
        rcases List.mem_cons.1 hz with rfl | hzys
        · exact Nat.le_of_not_lt hlt
        · exact Nat.le_trans (hy z hzys) (Nat.le_of_not_lt hlt)

theorem pairwise_sortByCreatedAtDesc (l : List Doc) :
    (sortByCreatedAtDesc l).Pairwise (fun d e => createdAtKey e ≤ createdAtKey d) := by
  induction l with
  | nil => simp [sortByCreatedAtDesc]
  | cons x xs ih => exact pairwise_insertByCreatedAtDesc x _ ih

theorem sublist_pair_of_pairwise {l : List Doc} {a b : Doc}
    (hp : l.Pairwise (fun d e => createdAtKey e ≤ createdAtKey d))
    (ha : a ∈ l) (hb : b ∈ l) (hlt : createdAtKey a < createdAtKey b) :
    List.Sublist [b, a] l := by
  induction l with
  | nil => cases ha
  | cons x xs ih =>
      rcases List.pairwise_cons.1 hp with ⟨hx, hxs⟩
      rcases List.mem_cons.1 hb with rfl | hb'
      · rcases List.mem_cons.1 ha with rfl | ha'
        · exact absurd hlt (lt_irrefl _)
        · exact (List.singleton_sublist.2 ha').cons₂ b
      · rcases List.mem_cons.1 ha with rfl | ha'
        · exact absurd (hx b hb') (by omega)
        · exact (ih hxs ha' hb').cons x

/-! ### Validation lemmas -/

/-- Validity of one required field in isolation. -/
def requiredOk (v : Option String) : Prop := v.isSome = true

/-- Validity of the `experience_years` field in isolation (`ge=0, le=50`,
skipped for absent or null values). -/
def expFieldOk : Option (Option Int) → Prop
  | some (some n) => 0 ≤ n ∧ n ≤ 50
  | _ => True

/-- Validity of the `hourly_rate` field in isolation (`ge=0`, skipped for
absent or null values). -/
def rateFieldOk : Option (Option Rat) → Prop
  | some (some q) => 0 ≤ q
  | _ => True

/-- Validity of the `spots` field in isolation (`ge=1`, skipped when the
field is absent and defaulted). -/
def spotsFieldOk : Option Int → Prop
  | some n => 1 ≤ n
  | none => True

theorem req_err_nil (v : Option String) (f : String) :
    (if v.isNone then [f] else []) = [] ↔ requiredOk v := by
  cases v <;> simp [requiredOk]

theorem exp_err_nil (v : Option (Option Int)) :
    (match v with
     | some (some n) => if 0 ≤ n ∧ n ≤ 50 then [] else ["experience_years"]
     | _ => []) = [] ↔ expFieldOk v := by
  match v with
  | none => simp [expFieldOk]
  | some none => simp [expFieldOk]
  | some (some n) => by_cases h : 0 ≤ n ∧ n ≤ 50 <;> simp [expFieldOk, h]

theorem rate_err_nil (v : Option (Option Rat)) :
    (match v with
     | some (some q) => if 0 ≤ q then [] else ["hourly_rate"]
     | _ => []) = [] ↔ rateFieldOk v := by
  match v with
  | none => simp [rateFieldOk]
  | some none => simp [rateFieldOk]
  | some (some q) => by_cases h : 0 ≤ q <;> simp [rateFieldOk, h]

theorem spots_err_nil (v : Option Int) :
    (match v with
     | some n => if 1 ≤ n then [] else ["spots"]
     | none => []) = [] ↔ spotsFieldOk v := by
  match v with
  | none => simp [spotsFieldOk]
  | some n => by_cases h : 1 ≤ n <;> simp [spotsFieldOk, h]

theorem modelErrors_eq_nil_iff (p : ModelPayload) :
    modelErrors p = [] ↔
      (requiredOk p.name ∧ requiredOk p.city ∧
        expFieldOk p.experience_years ∧ rateFieldOk p.hourly_rate) := by
  unfold modelErrors
  rw [List.append_eq_nil, List.append_eq_nil, List.append_eq_nil,
    req_err_nil, req_err_nil, exp_err_nil, rate_err_nil]
  tauto

theorem gigErrors_eq_nil_iff (g : GigPayload) :
    gigErrors g = [] ↔
      (requiredOk g.title ∧ requiredOk g.club_name ∧ requiredOk g.city ∧
        requiredOk g.date ∧ spotsFieldOk g.spots) := by
  unfold gigErrors
  rw [List.append_eq_nil, List.append_eq_nil, List.append_eq_nil,
    List.append_eq_nil, req_err_nil, req_err_nil, req_err_nil, req_err_nil,
    spots_err_nil]
  tauto

theorem modelValidate_error (p : ModelPayload) (h : modelErrors p ≠ []) :
    modelValidate p = .error (modelErrors p) := by
  unfold modelValidate
  cases he : modelErrors p with
  | nil => exact absurd he h
  | cons e es => rfl

theorem modelValidate_ok_val (p : ModelPayload) (r : ModelRecord)
    (h : modelValidate p = .ok r) : r = p.value := by
  unfold modelValidate at h
  cases he : modelErrors p with
  | nil =>
      rw [he] at h
      exact (Except.ok.inj h).symm
  | cons e es =>
      rw [he] at h
      exact Except.noConfusion h

theorem modelValidate_ok_iff (p : ModelPayload) :
    (∃ r, modelValidate p = .ok r) ↔ modelErrors p = [] := by
  constructor
  · rintro ⟨r, hr⟩
    by_contra h
    rw [modelValidate_error p h] at hr
    exact Except.noConfusion hr
  · intro h
    refine ⟨p.value, ?_⟩
    unfold modelValidate
    rw [h]

theorem gigValidate_error (g : GigPayload) (h : gigErrors g ≠ []) :
    gigValidate g = .error (gigErrors g) := by
  unfold gigValidate
  cases he : gigErrors g with
  | nil => exact absurd he h
  | cons e es => rfl

theorem gigValidate_ok_val (g : GigPayload) (r : GigRecord)
    (h : gigValidate g = .ok r) : r = g.value := by
  unfold gigValidate at h
  cases he : gigErrors g with
  | nil =>
      rw [he] at h
      exact (Except.ok.inj h).symm
  | cons e es =>
      rw [he] at h
      exact Except.noConfusion h

theorem gigValidate_ok_iff (g : GigPayload) :
    (∃ r, gigValidate g = .ok r) ↔ gigErrors g = [] := by
  constructor
  · rintro ⟨r, hr⟩
    by_contra h
    rw [gigValidate_error g h] at hr
    exact Except.noConfusion hr
  · intro h
    refine ⟨g.value, ?_⟩
    unfold gigValidate
    rw [h]

theorem exp_mem_errors (p : ModelPayload) (n : Int)
    (hn : p.experience_years = some (some n)) (hout : n < 0 ∨ 50 < n) :
    "experience_years" ∈ modelErrors p := by
  have hneg : ¬ (0 ≤ n ∧ n ≤ 50) := by omega
  unfold modelErrors
  rw [hn]
  simp [hneg]

theorem rate_mem_errors (p : ModelPayload) (q : Rat)
    (hq : p.hourly_rate = some (some q)) (hout : q < 0) :
    "hourly_rate" ∈ modelErrors p := by
  have hneg : ¬ (0 ≤ q) := not_le.2 hout
  unfold modelErrors
  rw [hq]
  simp [hneg]

theorem spots_mem_errors (g : GigPayload) (n : Int)
    (hn : g.spots = some n) (hout : n < 1) :
    "spots" ∈ gigErrors g := by
  have hneg : ¬ (1 ≤ n) := by omega
  unfold gigErrors
  rw [hn]
  simp [hneg]

/-- C5: Entity validation enforces the stated numeric range constraints and
list defaults: a talent-profile write is rejected with a field-level
validation error whenever `experience_years` is outside 0-50 or
`hourly_rate` is negative, a gig write is rejected whenever `spots` is less
than 1, omitted list-typed fields (`skills`, `photos`, `requirements`)
default to the empty list, and validity decomposes into independent
per-field checks (no cross-field or cross-entity check). -/
theorem C5_validation_constraints (p : ModelPayload) (g : GigPayload) :
    (∀ n : Int, p.experience_years = some (some n) → n < 0 ∨ 50 < n →
      ∃ errs, modelValidate p = .error errs ∧ "experience_years" ∈ errs) ∧
    (∀ q : Rat, p.hourly_rate = some (some q) → q < 0 →
      ∃ errs, modelValidate p = .error errs ∧ "hourly_rate" ∈ errs) ∧
    (∀ n : Int, g.spots = some n → n < 1 →
      ∃ errs, gigValidate g = .error errs ∧ "spots" ∈ errs) ∧
    (∀ r, modelValidate p = .ok r →
      (p.skills = none → r.skills = []) ∧ (p.photos = none → r.photos = [])) ∧
    (∀ r, gigValidate g = .ok r → g.requirements = none → r.requirements = []) ∧
    ((∃ r, modelValidate p = .ok r) ↔
      requiredOk p.name ∧ requiredOk p.city ∧
        expFieldOk p.experience_years ∧ rateFieldOk p.hourly_rate) ∧
    ((∃ r, gigValidate g = .ok r) ↔
      requiredOk g.title ∧ requiredOk g.club_name ∧ requiredOk g.city ∧
        requiredOk g.date ∧ spotsFieldOk g.spots) := by
  refine ⟨?_, ?_, ?_, ?_, ?_, ?_, ?_⟩
  · intro n hn hout
    have hmem := exp_mem_errors p n hn hout
    have hne : modelErrors p ≠ [] := by
      intro e
      rw [e] at hmem
      cases hmem
    exact ⟨modelErrors p, modelValidate_error p hne, hmem⟩
  · intro q hq hout
    have hmem := rate_mem_errors p q hq hout
    have hne : modelErrors p ≠ [] := by
      intro e
      rw [e] at hmem
      cases hmem
    exact ⟨modelErrors p, modelValidate_error p hne, hmem⟩
  · intro n hn hout
    have hmem := spots_mem_errors g n hn hout
    have hne : gigErrors g ≠ [] := by
      intro e
      rw [e] at hmem
      cases hmem
    exact ⟨gigErrors g, gigValidate_error g hne, hmem⟩
  · intro r hr
    have hv := modelValidate_ok_val p r hr
    subst hv
    refine ⟨fun hs => ?_, fun hs => ?_⟩
    · simp [ModelPayload.value, hs]
    · simp [ModelPayload.value, hs]
  · intro r hr hreq
    have hv := gigValidate_ok_val g r hr
    subst hv
    simp [GigPayload.value, hreq]
  · rw [modelValidate_ok_iff]
    exact modelErrors_eq_nil_iff p
  · rw [gigValidate_ok_iff]
    exact gigErrors_eq_nil_iff g

/-- Witness for C5 at concrete payloads: `experience_years = 60`,
`hourly_rate = -5` and `spots = 0` are each rejected naming the offending
field, and omitting the list fields yields empty lists. -/
theorem C5_validation_constraints_witness :
    (∃ errs, modelValidate
        { name := some "Ava", city := some "Miami",
          experience_years := some (some 60) } = .error errs ∧
      "experience_years" ∈ errs) ∧
    (∃ errs, modelValidate
        { name := some "Ava", city := some "Miami",
          hourly_rate := some (some (-5)) } = .error errs ∧
      "hourly_rate" ∈ errs) ∧
    (∃ errs, gigValidate
        { title := some "Night", club_name := some "Echo", city := some "LA",
          date := some "Fri", spots := some 0 } = .error errs ∧
      "spots" ∈ errs) ∧
    (∃ r, modelValidate { name := some "Ava", city := some "Miami" } = .ok r ∧
      r.skills = [] ∧ r.photos = []) ∧
    (∃ r, gigValidate
        { title := some "Night", club_name := some "Echo", city := some "LA",
          date := some "Fri" } = .ok r ∧
      r.requirements = []) := by
  refine ⟨?_, ?_, ?_, ?_, ?_⟩
  · exact (C5_validation_constraints
      { name := some "Ava", city := some "Miami",
        experience_years := some (some 60) }
      { title := some "Night", club_name := some "Echo", city := some "LA",
        date := some "Fri" }).1 60 rfl (by decide)
  · exact (C5_validation_constraints
      { name := some "Ava", city := some "Miami",
        hourly_rate := some (some (-5)) }
      { title := some "Night", club_name := some "Echo", city := some "LA",
        date := some "Fri" }).2.1 (-5) rfl (by decide)
  · exact (C5_validation_constraints
      { name := some "Ava", city := some "Miami" }
      { title := some "Night", club_name := some "Echo", city := some "LA",
        date := some "Fri", spots := some 0 }).2.2.1 0 rfl (by decide)
  · have h := (C5_validation_constraints
      { name := some "Ava", city := some "Miami" }
      { title := some "Night", club_name := some "Echo", city := some "LA",
        date := some "Fri" }).2.2.2.1 _ rfl
    exact ⟨_, rfl, h.1 rfl, h.2 rfl⟩
  · have h := (C5_validation_constraints
      { name := some "Ava", city := some "Miami" }
      { title := some "Night", club_name := some "Echo", city := some "LA",
        date := some "Fri" }).2.2.2.2.1 _ rfl
    exact ⟨_, rfl, h rfl⟩

/-! ### Store well-formedness and list-endpoint membership -/

/-- A stored collection is well formed when every document carries a
store-generated ObjectId `_id` below the generator state and no separate
`id` key (documents are only ever written by `create_document`). -/
def WFColl (l : List Doc) (bound : Nat) : Prop :=
  ∀ d ∈ l, (∃ n, docGet d "_id" = some (.oid n) ∧ n < bound) ∧ docGet d "id" = none

/-- Store invariant maintained by `create_document`: well-formed
collections, generator below the 12-byte ObjectId bound. -/
def WFStore (s : Store) : Prop :=
  WFColl s.model s.nextId ∧ WFColl s.club s.nextId ∧ WFColl s.gig s.nextId ∧
    WFColl s.application s.nextId ∧ s.nextId < 16 ^ 24

theorem mem_get_documents {docs : List Doc} {q : Query} {d : Doc} :
    d ∈ get_documents docs q ↔ d ∈ docs ∧ docMatches d q = true := by
  unfold get_documents
  exact List.mem_filter

theorem list_models_source {s : Store} {city skill : Option String} {d : Doc}
    (hd : d ∈ list_models city skill s) : ∃ d₀ ∈ s.model, d = «_serialize» d₀ := by
  unfold list_models at hd
  rcases List.mem_map.1 hd with ⟨d₀, hmem, rfl⟩
  exact ⟨d₀, (mem_get_documents.1 hmem).1, rfl⟩

theorem list_clubs_source {s : Store} {city : Option String} {d : Doc}
    (hd : d ∈ list_clubs city s) : ∃ d₀ ∈ s.club, d = «_serialize» d₀ := by
  unfold list_clubs at hd
  rcases List.mem_map.1 hd with ⟨d₀, hmem, rfl⟩
  exact ⟨d₀, (mem_get_documents.1 hmem).1, rfl⟩

theorem list_gigs_source {s : Store} {city : Option String} {d : Doc}
    (hd : d ∈ list_gigs city s) : ∃ d₀ ∈ s.gig, d = «_serialize» d₀ := by
  unfold list_gigs at hd
  rcases List.mem_map.1 hd with ⟨d₀, hmem, rfl⟩
  have h2 := (perm_sortByCreatedAtDesc _).mem_iff.1 hmem
  exact ⟨d₀, (mem_get_documents.1 h2).1, rfl⟩

theorem list_applications_source {s : Store} {gid mid : Option String} {d : Doc}
    (hd : d ∈ list_applications gid mid s) :
    ∃ d₀ ∈ s.application, d = «_serialize» d₀ := by
  unfold list_applications at hd
  rcases List.mem_map.1 hd with ⟨d₀, hmem, rfl⟩
  exact ⟨d₀, (mem_get_documents.1 hmem).1, rfl⟩

/-- C7: for every document returned by a list endpoint, the store's
internal `_id` field is removed and surfaced as a string field `id`, and
every timestamp-valued field of the stored source document is rendered as
an ISO-8601 string in the response. -/
theorem C7_list_serialization (s : Store) (city skill gid mid : Option String)
    (d : Doc) (hwf : WFStore s)
    (hd : d ∈ list_models city skill s ∨ d ∈ list_clubs city s ∨
      d ∈ list_gigs city s ∨ d ∈ list_applications gid mid s) :
    docGet d "_id" = none ∧
    (∃ n, docGet d "id" = some (.str (oidToString n))) ∧
    ∃ d₀, d = «_serialize» d₀ ∧
      ∀ k t, docGet d₀ k = some (.dt t) →
        docGet d k = some (.str (isoformat t)) := by
  obtain ⟨d₀, hmem, rfl⟩ :
      ∃ d₀, (d₀ ∈ s.model ∨ d₀ ∈ s.club ∨ d₀ ∈ s.gig ∨ d₀ ∈ s.application) ∧
        d = «_serialize» d₀ := by
    rcases hd with h | h | h | h
    · rcases list_models_source h with ⟨d₀, hm, he⟩
      exact ⟨d₀, Or.inl hm, he⟩
    · rcases list_clubs_source h with ⟨d₀, hm, he⟩
      exact ⟨d₀, Or.inr (Or.inl hm), he⟩
    · rcases list_gigs_source h with ⟨d₀, hm, he⟩
      exact ⟨d₀, Or.inr (Or.inr (Or.inl hm)), he⟩
    · rcases list_applications_source h with ⟨d₀, hm, he⟩
      exact ⟨d₀, Or.inr (Or.inr (Or.inr hm)), he⟩
  obtain ⟨⟨n, hid, hlt⟩, hnoid⟩ :
      (∃ n, docGet d₀ "_id" = some (.oid n) ∧ n < s.nextId) ∧
        docGet d₀ "id" = none := by
    rcases hwf with ⟨h1, h2, h3, h4, h5⟩
    rcases hmem with h | h | h | h
    exacts [h1 d₀ h, h2 d₀ h, h3 d₀ h, h4 d₀ h]
  refine ⟨serialize_get_underscore_id d₀ n hid,
    ⟨n, serialize_get_id d₀ n hid⟩, d₀, rfl, ?_⟩
  intro k t hkt
  by_cases hk1 : k = "_id"
  · rw [hk1, hid] at hkt
    exact BVal.noConfusion (Option.some.inj hkt)
  · by_cases hk2 : k = "id"
    · rw [hk2, hnoid] at hkt
      exact Option.noConfusion hkt
    · rw [serialize_get_other d₀ n k hid hk1 hk2, hkt]
      rfl

/-- A sample stored talent profile and store used by witnesses. -/
def sampleModelDoc : Doc :=
  [("_id", .oid 0), ("name", .str "Ava"), ("city", .str "Miami"),
   ("skills", .arr [.str "VIP"]), ("created_at", .dt 0)]

/-- A one-profile store reached by inserting `sampleModelDoc`. -/
def sampleStore : Store :=
  { model := [sampleModelDoc], club := [], gig := [], application := [],
    nextId := 1, clock := 1 }

theorem sampleStore_wf : WFStore sampleStore := by
  refine ⟨?_, ?_, ?_, ?_, by decide⟩
  · intro d hd
    rcases List.mem_singleton.1 hd with rfl
    exact ⟨⟨0, rfl, by decide⟩, rfl⟩
  · intro d hd
    exact absurd hd (List.not_mem_nil d)
  · intro d hd
    exact absurd hd (List.not_mem_nil d)
  · intro d hd
    exact absurd hd (List.not_mem_nil d)

/-- Witness for C7: the serialized sample profile as returned by
`GET /api/models`. -/
theorem C7_list_serialization_witness :
    docGet («_serialize» sampleModelDoc) "_id" = none ∧
    (∃ n, docGet («_serialize» sampleModelDoc) "id" =
      some (.str (oidToString n))) ∧
    ∃ d₀, «_serialize» sampleModelDoc = «_serialize» d₀ ∧
      ∀ k t, docGet d₀ k = some (.dt t) →
        docGet («_serialize» sampleModelDoc) k = some (.str (isoformat t)) :=
  C7_list_serialization sampleStore none none none none
    («_serialize» sampleModelDoc) sampleStore_wf (Or.inl (by decide))

/-! ### Frame lemmas for the serializer (C10) -/

theorem not_any_of_docGet_eq_none (d : Doc) (k : String)
    (h : docGet d k = none) : ¬ d.any (fun p => p.1 == k) = true := by
  intro hany
  rcases List.any_eq_true.1 hany with ⟨x, hx, hpx⟩
  unfold docGet at h
  rcases Option.map_eq_none'.1 h with hfind
  rcases List.find?_eq_none.1 hfind x hx hpx

theorem mapFst_mapVal (f : BVal → BVal) (l : Doc) :
    (l.map (fun p => (p.1, f p.2))).map Prod.fst = l.map Prod.fst := by
  induction l with
  | nil => rfl
  | cons p l ih => simp [ih]

theorem mapFst_filterKey (l : Doc) (k : String) :
    ((l.filter (fun p => p.1 != k)).map Prod.fst) =
      (l.map Prod.fst).filter (fun x => x != k) := by
  induction l with
  | nil => rfl
  | cons p l ih =>
      rw [List.filter_cons, List.map_cons, List.filter_cons]
      cases hb : (p.1 != k) with
      | true => rw [if_pos rfl, List.map_cons, ih, if_pos rfl]
      | false => rw [if_neg (by decide), ih, if_neg (by decide)]

/-- C10 counterexample: on a document that already carries an `id` key,
`_serialize` overwrites that key's value with the stringified `_id`, even
though the original value is neither a store identifier nor a timestamp —
so not every key other than `_id` keeps its value. -/
theorem C10_counterexample :
    docGet [("_id", BVal.oid 1), ("id", BVal.str "hello")] "id" =
      some (.str "hello") ∧
    serializeVal (.str "hello") = .str "hello" ∧
    docGet («_serialize» [("_id", BVal.oid 1), ("id", BVal.str "hello")]) "id" ≠
      some ((docGet [("_id", BVal.oid 1), ("id", BVal.str "hello")] "id").getD .null) := by
  refine ⟨rfl, rfl, ?_⟩
  decide

/-- C10 (amended): for every non-empty document with no pre-existing `id`
key, the serializer preserves all content other than the identifier
rename: every key other than `_id` and `id` is present with its value
unchanged unless it is a store identifier or a timestamp (whose
representation alone becomes a string), and the key list is unchanged
except that when `_id` holds a store identifier it is dropped and `id`
appended; no other field is added or dropped. -/
theorem C10_serializer_frame (doc : Doc) (hne : doc ≠ [])
    (hnoid : docGet doc "id" = none) :
    (∀ k, k ≠ "_id" → k ≠ "id" →
      docGet («_serialize» doc) k = (docGet doc k).map serializeVal) ∧
    (∀ v : BVal, serializeVal v = v ∨
      (∃ n, v = .oid n ∧ serializeVal v = .str (oidToString n)) ∨
      (∃ t, v = .dt t ∧ serializeVal v = .str (isoformat t))) ∧
    (∀ n, docGet doc "_id" = some (.oid n) →
      («_serialize» doc).map Prod.fst =
        (doc.map Prod.fst).filter (fun x => x != "_id") ++ ["id"]) ∧
    ((∀ n, docGet doc "_id" ≠ some (.oid n)) →
      («_serialize» doc).map Prod.fst = doc.map Prod.fst) := by
  refine ⟨?_, ?_, ?_, ?_⟩
  · intro k hk1 hk2
    by_cases h : ∃ n, docGet doc "_id" = some (.oid n)
    · rcases h with ⟨n, hn⟩
      exact serialize_get_other doc n k hn hk1 hk2
    · push_neg at h
      exact serialize_get_plain doc k h
  · intro v
    cases v with
    | oid n => exact Or.inr (Or.inl ⟨n, rfl, rfl⟩)
    | dt t => exact Or.inr (Or.inr ⟨t, rfl, rfl⟩)
    | str s => exact Or.inl rfl
    | int n => exact Or.inl rfl
    | rat q => exact Or.inl rfl
    | arr xs => exact Or.inl rfl
    | null => exact Or.inl rfl
  · intro n hn
    rw [serialize_eq_rename_map doc n hn, mapFst_mapVal]
    have hset : docSet doc "id" (.str (oidToString n)) =
        doc ++ [("id", .str (oidToString n))] := by
      unfold docSet
      rw [if_neg (not_any_of_docGet_eq_none doc "id" hnoid)]
    rw [hset]
    unfold docErase
    rw [List.filter_append, List.map_append, mapFst_filterKey]
    rfl
  · intro h
    rw [serialize_eq_map_plain doc h, mapFst_mapVal]

/-- Witness for C10 (amended) at the sample stored profile. -/
theorem C10_serializer_frame_witness :
    docGet («_serialize» sampleModelDoc) "name" =
      (docGet sampleModelDoc "name").map serializeVal ∧
    docGet («_serialize» sampleModelDoc) "created_at" =
      (docGet sampleModelDoc "created_at").map serializeVal ∧
    («_serialize» sampleModelDoc).map Prod.fst =
      (sampleModelDoc.map Prod.fst).filter (fun x => x != "_id") ++ ["id"] := by
  have h := C10_serializer_frame sampleModelDoc (by decide) rfl
  exact ⟨h.1 "name" (by decide) (by decide),
    h.1 "created_at" (by decide) (by decide), h.2.2.1 0 rfl⟩

/-! ### Skill filtering (C2) -/

theorem serialize_get_nonid (doc : Doc) (k : String)
    (h1 : k ≠ "_id") (h2 : k ≠ "id") :
    docGet («_serialize» doc) k = (docGet doc k).map serializeVal := by
  by_cases h : ∃ n, docGet doc "_id" = some (.oid n)
  · rcases h with ⟨n, hn⟩
    exact serialize_get_other doc n k hn h1 h2
  · push_neg at h
    exact serialize_get_plain doc k h

theorem serializeVal_eq_arr (v : BVal) (xs : List BVal)
    (h : serializeVal v = .arr xs) : v = .arr xs := by
  cases v <;> simp [serializeVal] at h ⊢ <;> exact h

theorem skill_match_iff (d : Doc) (sk : String) (xs : List BVal)
    (h : docGet d "skills" = some (.arr xs)) :
    docMatches d [("skills", QCond.isin [.str sk])] = true ↔ BVal.str sk ∈ xs := by
  unfold docMatches condMatches
  rw [List.all_cons, List.all_nil, Bool.and_true, h]
  rw [List.any_eq_true]
  constructor
  · rintro ⟨x, hx, hbx⟩
    rcases List.any_eq_true.1 hbx with ⟨v, hv, hxv⟩
    rcases List.mem_singleton.1 hv with rfl
    rcases eq_of_beq hxv with rfl
    exact hx
  · intro hmem
    refine ⟨.str sk, hmem, ?_⟩
    rw [List.any_eq_true]
    exact ⟨.str sk, List.mem_singleton.2 rfl, beq_self_eq_true _⟩

theorem list_models_skill_query (s : Store) (sk : String) (hsk : sk ≠ "") :
    list_models none (some sk) s =
      (get_documents s.model [("skills", QCond.isin [.str sk])]).map «_serialize» := by
  have hb : sk.isEmpty = false := by
    rw [Bool.eq_false_iff]
    intro he
    exact hsk ((String.isEmpty_iff sk).1 he)
  unfold list_models cityQuery
  simp [hb]

/-- C2 counterexample: for the empty skill query string the handler drops
the filter (Python truthiness of `if skill:`), so the sample profile is
returned even though `""` is not an element of its skills list — the
claimed equivalence fails at `skill = ""`. -/
theorem C2_counterexample :
    docGet sampleModelDoc "skills" = some (.arr [.str "VIP"]) ∧
    «_serialize» sampleModelDoc ∈ list_models none (some "") sampleStore ∧
    ¬ BVal.str "" ∈ [BVal.str "VIP"] := by
  refine ⟨rfl, by decide, by decide⟩

/-- C2 (amended): for every stored talent profile and every non-empty
skill query string, `GET /api/models` with that skill filter returns the
profile iff the queried string is an exact element of the profile's skills
list (no substring and no case-insensitive matching); an empty skill
string disables the filter instead. -/
theorem C2_skill_filter (s : Store) (d : Doc) (sk : String) (xs : List BVal)
    (hd : d ∈ s.model) (hskills : docGet d "skills" = some (.arr xs))
    (hsk : sk ≠ "") :
    «_serialize» d ∈ list_models none (some sk) s ↔ BVal.str sk ∈ xs := by
  rw [list_models_skill_query s sk hsk]
  constructor
  · intro hmem
    rcases List.mem_map.1 hmem with ⟨d', hd', heq⟩
    rcases mem_get_documents.1 hd' with ⟨hd'm, hd'match⟩
    have hget : docGet d' "skills" = some (.arr xs) := by
      have h1 : docGet («_serialize» d') "skills" =
          docGet («_serialize» d) "skills" := by rw [heq]
      rw [serialize_get_nonid d' "skills" (by decide) (by decide),
        serialize_get_nonid d "skills" (by decide) (by decide), hskills] at h1
      rcases Option.map_eq_some'.1 h1 with ⟨v, hv, hsv⟩
      rw [hv, serializeVal_eq_arr v xs hsv]
    exact (skill_match_iff d' sk xs hget).1 hd'match
  · intro hmem
    refine List.mem_map.2 ⟨d, mem_get_documents.2 ⟨hd, ?_⟩, rfl⟩
    exact (skill_match_iff d sk xs hskills).2 hmem

/-- Witness for C2 (amended): exact matching returns the sample profile,
and matching is case-sensitive (querying `"vip"` against skill `"VIP"`
finds nothing). -/
theorem C2_skill_filter_witness :
    («_serialize» sampleModelDoc ∈ list_models none (some "VIP") sampleStore ↔
      BVal.str "VIP" ∈ [BVal.str "VIP"]) ∧
    («_serialize» sampleModelDoc ∈ list_models none (some "vip") sampleStore ↔
      BVal.str "vip" ∈ [BVal.str "VIP"]) :=
  ⟨C2_skill_filter sampleStore sampleModelDoc "VIP" [BVal.str "VIP"]
      (by decide) rfl (by decide),
    C2_skill_filter sampleStore sampleModelDoc "vip" [BVal.str "VIP"]
      (by decide) rfl (by decide)⟩

/-! ### Application listing (C9) -/

/-- Direct field-level reading of one optional reference-id filter of
`GET /api/applications`: absent means no constraint, a provided value must
equal the stored string field after parse-normalization. -/
def refMatchSpec (field : String) (v : Option String) (d : Doc) : Bool :=
  match v with
  | some g => docGet d field == some (.str (refFilterValue g))
  | none => true

theorem filter_congr_docs (l : List Doc) (p q : Doc → Bool)
    (h : ∀ x ∈ l, p x = q x) : l.filter p = l.filter q := by
  induction l with
  | nil => rfl
  | cons a l ih =>
      rw [List.filter_cons, List.filter_cons, h a (List.mem_cons_self a l),
        ih (fun x hx => h x (List.mem_cons_of_mem a hx))]

theorem docMatches_append (d : Doc) (q₁ q₂ : Query) :
    docMatches d (q₁ ++ q₂) = (docMatches d q₁ && docMatches d q₂) := by
  unfold docMatches
  rw [List.all_append]

theorem refQuery_matches (d : Doc) (f : String) (v : Option String)
    (hv : ∀ g, v = some g → g ≠ "") :
    docMatches d (refQuery f v) = refMatchSpec f v d := by
  cases v with
  | none => rfl
  | some g =>
      have hb : g.isEmpty = false := by
        rw [Bool.eq_false_iff]
        intro he
        exact hv g rfl ((String.isEmpty_iff g).1 he)
      unfold refQuery refMatchSpec
      simp [hb, docMatches, condMatches]

/-- A stored application with an unparsable raw `gig_id`, and its store. -/
def sampleAppDoc : Doc :=
  [("_id", .oid 0), ("gig_id", .str "abc"), ("model_id", .str "def"),
   ("message", .null), ("status", .str "pending"), ("applied_at", .null),
   ("created_at", .dt 0)]

/-- A store holding only `sampleAppDoc`. -/
def sampleAppStore : Store :=
  { model := [], club := [], gig := [], application := [sampleAppDoc],
    nextId := 1, clock := 1 }

/-- C9 counterexample: for the empty filter value `""`, the handler drops
the filter entirely (Python truthiness of `if gig_id:`), so an application
whose `gig_id` is `"abc"` is returned — the raw empty string is not used
as a filter value, contradicting the claim as stated for every filter
value. -/
theorem C9_counterexample :
    docGet sampleAppDoc "gig_id" = some (.str "abc") ∧
    «_serialize» sampleAppDoc ∈ list_applications (some "") none sampleAppStore ∧
    ("abc" : String) ≠ "" := by
  refine ⟨rfl, by decide, by decide⟩

/-- C9 (amended): for every non-empty (or absent) `gig_id` / `model_id`
filter value, `GET /api/applications` never fails: it returns exactly the
serialized applications whose reference field equals the filter value —
normalized to the canonical identifier string when it parses as a store
identifier, used raw otherwise; an empty value disables that filter. -/
theorem C9_reference_filter (s : Store) (gid mid : Option String)
    (hg : ∀ g, gid = some g → g ≠ "") (hm : ∀ m, mid = some m → m ≠ "") :
    list_applications gid mid s =
      (s.application.filter (fun d =>
        refMatchSpec "gig_id" gid d && refMatchSpec "model_id" mid d)).map
        «_serialize» ∧
    (∀ g n, oidParse g = some n → refFilterValue g = oidToString n) ∧
    (∀ g, oidParse g = none → refFilterValue g = g) := by
  refine ⟨?_, ?_, ?_⟩
  · have hcong : ∀ d ∈ s.application,
        docMatches d (refQuery "gig_id" gid ++ refQuery "model_id" mid) =
          (refMatchSpec "gig_id" gid d && refMatchSpec "model_id" mid d) := by
      intro d _
      rw [docMatches_append, refQuery_matches d "gig_id" gid hg,
        refQuery_matches d "model_id" mid hm]
    show ((s.application.filter (fun d =>
        docMatches d (refQuery "gig_id" gid ++ refQuery "model_id" mid))).map
        «_serialize» = _)
    rw [filter_congr_docs s.application _ _ hcong]
  · intro g n h
    unfold refFilterValue
    rw [h]
  · intro g h
    unfold refFilterValue
    rw [h]

/-- A stored application whose `gig_id` is a canonical identifier string. -/
def sampleAppDoc2 : Doc :=
  [("_id", .oid 1), ("gig_id", .str (oidToString 10)),
   ("model_id", .str (oidToString 2)), ("message", .null),
   ("status", .str "pending"), ("applied_at", .null), ("created_at", .dt 1)]

/-- A store holding only `sampleAppDoc2`. -/
def sampleAppStore2 : Store :=
  { model := [], club := [], gig := [], application := [sampleAppDoc2],
    nextId := 2, clock := 2 }

/-- Witness for C9 (amended): querying with an uppercase form of the
stored identifier is normalized to the canonical lowercase form and finds
the application. -/
theorem C9_reference_filter_witness :
    list_applications (some "00000000000000000000000A") none sampleAppStore2 =
      (sampleAppStore2.application.filter (fun d =>
        refMatchSpec "gig_id" (some "00000000000000000000000A") d &&
        refMatchSpec "model_id" none d)).map «_serialize» ∧
    list_applications (some "00000000000000000000000A") none sampleAppStore2 =
      [«_serialize» sampleAppDoc2] := by
  refine ⟨(C9_reference_filter sampleAppStore2
    (some "00000000000000000000000A") none
    (fun g h => by
      rw [show g = "00000000000000000000000A" from (Option.some.inj h).symm]
      decide)
    (fun m h => Option.noConfusion h)).1, by decide⟩

/-! ### Gig listing (C4, C8) -/

/-- C4: the list returned by `GET /api/gigs` is sorted by `created_at`
descending: for any two stored gigs A and B where A was created before B
(A precedes B in the insertion-ordered collection, whose `created_at`
stamps strictly increase with creation), B appears before A in the
result. -/
theorem C4_gigs_sorted_desc (s : Store) (A B : Doc)
    (hmono : s.gig.Pairwise (fun d e => createdAtKey d < createdAtKey e))
    (hab : List.Sublist [A, B] s.gig) :
    List.Sublist [«_serialize» B, «_serialize» A] (list_gigs none s) := by
  have hpair : List.Pairwise (fun d e => createdAtKey d < createdAtKey e) [A, B] :=
    List.Pairwise.sublist hab hmono
  have hkey : createdAtKey A < createdAtKey B :=
    (List.pairwise_cons.1 hpair).1 B (List.mem_singleton.2 rfl)
  have hA : A ∈ s.gig := hab.subset (by simp)
  have hB : B ∈ s.gig := hab.subset (by simp)
  have hAf : A ∈ get_documents s.gig (cityQuery none) :=
    mem_get_documents.2 ⟨hA, rfl⟩
  have hBf : B ∈ get_documents s.gig (cityQuery none) :=
    mem_get_documents.2 ⟨hB, rfl⟩
  have hAs : A ∈ sortByCreatedAtDesc (get_documents s.gig (cityQuery none)) :=
    (perm_sortByCreatedAtDesc _).mem_iff.2 hAf
  have hBs : B ∈ sortByCreatedAtDesc (get_documents s.gig (cityQuery none)) :=
    (perm_sortByCreatedAtDesc _).mem_iff.2 hBf
  have hsub := sublist_pair_of_pairwise (pairwise_sortByCreatedAtDesc _) hAs hBs hkey
  have hmap := hsub.map «_serialize»
  simpa [list_gigs] using hmap

/-- Two sample stored gigs: `sampleGigDoc0` was created first. -/
def sampleGigDoc0 : Doc :=
  [("_id", .oid 0), ("title", .str "Early Night"), ("club_name", .str "Echo"),
   ("city", .str "Miami"), ("date", .str "Fri"), ("created_at", .dt 0)]

/-- The gig created second. -/
def sampleGigDoc1 : Doc :=
  [("_id", .oid 1), ("title", .str "Late Night"), ("club_name", .str "Echo"),
   ("city", .str "Miami"), ("date", .str "Sat"), ("created_at", .dt 1)]

/-- A store holding the two sample gigs in creation order. -/
def sampleGigStore : Store :=
  { model := [], club := [], gig := [sampleGigDoc0, sampleGigDoc1],
    application := [], nextId := 2, clock := 2 }

/-- Witness for C4: the newer sample gig precedes the older one in the
response. -/
theorem C4_gigs_sorted_desc_witness :
    List.Sublist [«_serialize» sampleGigDoc1, «_serialize» sampleGigDoc0]
      (list_gigs none sampleGigStore) :=
  C4_gigs_sorted_desc sampleGigStore sampleGigDoc0 sampleGigDoc1
    (by decide) (by decide)

theorem city_match_iff (d : Doc) (c : String) :
    docMatches d [("city", QCond.eqv (.str c))] = true ↔
      docGet d "city" = some (.str c) := by
  unfold docMatches condMatches
  simp

theorem list_gigs_city_query (s : Store) (c : String) (hc : c ≠ "") :
    list_gigs (some c) s =
      (sortByCreatedAtDesc
        (get_documents s.gig [("city", QCond.eqv (.str c))])).map «_serialize» := by
  have hb : c.isEmpty = false := by
    rw [Bool.eq_false_iff]
    intro he
    exact hc ((String.isEmpty_iff c).1 he)
  unfold list_gigs cityQuery
  simp [hb]

/-- C8 counterexample: `GET /api/gigs` does not support a role filter —
the handler (src/main.py:490) declares only `city`, so a supplied `role`
parameter is ignored and both sample gigs are returned even though neither
has any `role` field to match. -/
theorem C8_counterexample :
    handle_list_gigs { city := none, role := some "Promo" } sampleGigStore =
      [«_serialize» sampleGigDoc1, «_serialize» sampleGigDoc0] ∧
    docGet sampleGigDoc0 "role" = none ∧ docGet sampleGigDoc1 "role" = none := by
  refine ⟨by decide, rfl, rfl⟩

/-- C8 (amended): `GET /api/gigs` filters by city only: a supplied `role`
query parameter is undeclared by the handler and has no effect on the
result, while a non-empty city filter returns exactly the serialized gigs
whose `city` field equals it. -/
theorem C8_gigs_filters (q : GigsQueryParams) (s : Store) (c : String)
    (hc : c ≠ "") (d : Doc) :
    handle_list_gigs q s = list_gigs q.city s ∧
    handle_list_gigs { city := q.city, role := q.role } s =
      handle_list_gigs { city := q.city, role := none } s ∧
    (d ∈ list_gigs (some c) s ↔
      ∃ g ∈ s.gig, docGet g "city" = some (.str c) ∧ d = «_serialize» g) := by
  refine ⟨rfl, rfl, ?_⟩
  rw [list_gigs_city_query s c hc]
  constructor
  · intro hmem
    rcases List.mem_map.1 hmem with ⟨g, hg, rfl⟩
    have hg2 := (perm_sortByCreatedAtDesc _).mem_iff.1 hg
    rcases mem_get_documents.1 hg2 with ⟨hgm, hgmatch⟩
    exact ⟨g, hgm, (city_match_iff g c).1 hgmatch, rfl⟩
  · rintro ⟨g, hgm, hgc, rfl⟩
    refine List.mem_map.2 ⟨g, ?_, rfl⟩
    refine (perm_sortByCreatedAtDesc _).mem_iff.2 ?_
    exact mem_get_documents.2 ⟨hgm, (city_match_iff g c).2 hgc⟩

/-- Witness for C8 (amended) on the sample store: the role parameter is
dropped and the Miami city filter returns the sample gig. -/
theorem C8_gigs_filters_witness :
    handle_list_gigs { city := some "Miami", role := some "Promo" }
      sampleGigStore = list_gigs (some "Miami") sampleGigStore ∧
    («_serialize» sampleGigDoc0 ∈ list_gigs (some "Miami") sampleGigStore ↔
      ∃ g ∈ sampleGigStore.gig, docGet g "city" = some (.str "Miami") ∧
        «_serialize» sampleGigDoc0 = «_serialize» g) :=
  ⟨(C8_gigs_filters { city := some "Miami", role := some "Promo" }
      sampleGigStore "Miami" (by decide) («_serialize» sampleGigDoc0)).1,
    (C8_gigs_filters { city := some "Miami", role := some "Promo" }
      sampleGigStore "Miami" (by decide) («_serialize» sampleGigDoc0)).2.2⟩

/-! ### Application creation (C3) -/

/-- C3: `POST /api/applications` answers 400 when either reference id is
not a well-formed store identifier, answers 404 when both parse but either
does not resolve to a stored gig/model, and stores the application
(returning its generated id) exactly when both references resolve. -/
theorem C3_application_references (p : ApplicationRecord) (s : Store) :
    ((oidParse p.gig_id = none ∨ oidParse p.model_id = none) →
      ∃ e, apply_to_gig p s = .error e ∧ e.status = 400) ∧
    (∀ g m, oidParse p.gig_id = some g → oidParse p.model_id = some m →
      (find_one_id s.gig g = none ∨ find_one_id s.model m = none) →
      ∃ e, apply_to_gig p s = .error e ∧ e.status = 404) ∧
    ((∃ r, apply_to_gig p s = .ok r) ↔
      (∃ g m, oidParse p.gig_id = some g ∧ oidParse p.model_id = some m ∧
        (find_one_id s.gig g).isSome = true ∧
        (find_one_id s.model m).isSome = true)) ∧
    (∀ newId s', apply_to_gig p s = .ok (newId, s') →
      newId = oidToString s.nextId ∧
      s'.application = s.application ++
        [("_id", BVal.oid s.nextId) ::
          (p.toDoc ++ [("created_at", BVal.dt s.clock)])] ∧
      s'.model = s.model ∧ s'.gig = s.gig ∧ s'.club = s.club) := by
  refine ⟨?_, ?_, ?_, ?_⟩
  · intro h
    cases hpg : oidParse p.gig_id with
    | none =>
        exact ⟨⟨400, "Invalid gig_id or model_id"⟩,
          by simp [apply_to_gig, hpg], rfl⟩
    | some g =>
        cases hpm : oidParse p.model_id with
        | none =>
            exact ⟨⟨400, "Invalid gig_id or model_id"⟩,
              by simp [apply_to_gig, hpg, hpm], rfl⟩
        | some m =>
            rcases h with h | h
            · rw [hpg] at h
              exact Option.noConfusion h
            · rw [hpm] at h
              exact Option.noConfusion h
  · intro g m hpg hpm hmiss
    cases hfg : find_one_id s.gig g with
    | some dg =>
        cases hfm : find_one_id s.model m with
        | some dm =>
            rcases hmiss with h | h
            · rw [hfg] at h
              exact Option.noConfusion h
            · rw [hfm] at h
              exact Option.noConfusion h
        | none =>
            exact ⟨⟨404, "Gig or Model not found"⟩,
              by simp [apply_to_gig, hpg, hpm, hfg, hfm], rfl⟩
    | none =>
        cases hfm : find_one_id s.model m with
        | some dm =>
            exact ⟨⟨404, "Gig or Model not found"⟩,
              by simp [apply_to_gig, hpg, hpm, hfg, hfm], rfl⟩
        | none =>
            exact ⟨⟨404, "Gig or Model not found"⟩,
              by simp [apply_to_gig, hpg, hpm, hfg, hfm], rfl⟩
  · constructor
    · rintro ⟨r, hr⟩
      cases hpg : oidParse p.gig_id with
      | none => simp [apply_to_gig, hpg] at hr
      | some g =>
          cases hpm : oidParse p.model_id with
          | none => simp [apply_to_gig, hpg, hpm] at hr
          | some m =>
              cases hfg : find_one_id s.gig g with
              | none => simp [apply_to_gig, hpg, hpm, hfg] at hr
              | some dg =>
                  cases hfm : find_one_id s.model m with
                  | none => simp [apply_to_gig, hpg, hpm, hfg, hfm] at hr
                  | some dm =>
                      exact ⟨g, m, rfl, rfl, by rw [hfg]; rfl,
                        by rw [hfm]; rfl⟩
    · rintro ⟨g, m, hpg, hpm, hg, hm⟩
      rcases Option.isSome_iff_exists.1 hg with ⟨dg, hfg⟩
      rcases Option.isSome_iff_exists.1 hm with ⟨dm, hfm⟩
      exact ⟨create_document s .application p.toDoc,
        by simp [apply_to_gig, hpg, hpm, hfg, hfm]⟩
  · intro newId s' h
    cases hpg : oidParse p.gig_id with
    | none => simp [apply_to_gig, hpg] at h
    | some g =>
        cases hpm : oidParse p.model_id with
        | none => simp [apply_to_gig, hpg, hpm] at h
        | some m =>
            cases hfg : find_one_id s.gig g with
            | none => simp [apply_to_gig, hpg, hpm, hfg] at h
            | some dg =>
                cases hfm : find_one_id s.model m with
                | none => simp [apply_to_gig, hpg, hpm, hfg, hfm] at h
                | some dm =>
                    have h2 : create_document s .application p.toDoc =
                        (newId, s') := by
                      have h' := h
                      simp only [apply_to_gig, hpg, hpm, hfg, hfm] at h'
                      exact Except.ok.inj h'
                    simp only [create_document] at h2
                    injection h2 with h3 h4
                    subst h3
                    subst h4
                    exact ⟨rfl, rfl, rfl, rfl, rfl⟩

/-- A store with one gig (id 0) and one model (id 1), used by the C3
witness. -/
def sampleRefStore : Store :=
  { model := [[("_id", .oid 1), ("name", .str "Ava"), ("city", .str "Miami"),
      ("created_at", .dt 1)]],
    club := [],
    gig := [[("_id", .oid 0), ("title", .str "Night"), ("city", .str "Miami"),
      ("created_at", .dt 0)]],
    application := [], nextId := 2, clock := 2 }

/-- A payload whose references both resolve. -/
def appPayloadOK : ApplicationRecord :=
  { gig_id := oidToString 0, model_id := oidToString 1, message := none,
    status := "pending", applied_at := none }

/-- A payload whose `gig_id` is not a well-formed identifier. -/
def appPayloadBadFormat : ApplicationRecord :=
  { gig_id := "xyz", model_id := oidToString 1, message := none,
    status := "pending", applied_at := none }

/-- A payload whose `gig_id` is well formed but resolves to nothing. -/
def appPayloadMissing : ApplicationRecord :=
  { gig_id := oidToString 5, model_id := oidToString 1, message := none,
    status := "pending", applied_at := none }

/-- Witness for C3 at the three kinds of payload. -/
theorem C3_application_references_witness :
    (∃ e, apply_to_gig appPayloadBadFormat sampleRefStore = .error e ∧
      e.status = 400) ∧
    (∃ e, apply_to_gig appPayloadMissing sampleRefStore = .error e ∧
      e.status = 404) ∧
    (∃ r, apply_to_gig appPayloadOK sampleRefStore = .ok r) :=
  ⟨(C3_application_references appPayloadBadFormat sampleRefStore).1
      (Or.inl (by decide)),
    (C3_application_references appPayloadMissing sampleRefStore).2.1 5 1
      (by decide) (by decide) (Or.inl (by decide)),
    (C3_application_references appPayloadOK sampleRefStore).2.2.1.2
      ⟨0, 1, by decide, by decide, by decide, by decide⟩⟩

/-! ### Profile creation and city listing (C1) -/

/-- C1: for every talent-profile payload that passes schema validation,
`POST /api/models` returns the store-generated identifier and a subsequent
`GET /api/models` filtered by that profile's city returns a list containing
the stored profile exactly once. -/
theorem C1_create_then_list (p : ModelPayload) (r : ModelRecord)
    (hval : modelValidate p = .ok r) (s : Store) (hwf : WFStore s) :
    (create_model r s).1 = oidToString s.nextId ∧
    ∃ d, (create_model r s).2.model = s.model ++ [d] ∧
      docGet d "name" = some (.str r.name) ∧
      docGet d "city" = some (.str r.city) ∧
      (list_models (some r.city) none (create_model r s).2).count
        («_serialize» d) = 1 := by
  refine ⟨rfl, ("_id", BVal.oid s.nextId) ::
    (r.toDoc ++ [("created_at", BVal.dt s.clock)]), rfl, rfl, rfl, ?_⟩
  set d : Doc := ("_id", BVal.oid s.nextId) ::
    (r.toDoc ++ [("created_at", BVal.dt s.clock)]) with hd
  have hdid : docGet d "_id" = some (.oid s.nextId) := rfl
  have hdcity : docGet d "city" = some (.str r.city) := rfl
  have hser_ne : ∀ x ∈ s.model, «_serialize» x ≠ «_serialize» d := by
    intro x hx heq
    rcases (hwf.1 x hx).1 with ⟨m, hm, hmlt⟩
    have h1 : docGet («_serialize» x) "id" = some (.str (oidToString m)) :=
      serialize_get_id x m hm
    have h2 : docGet («_serialize» d) "id" =
        some (.str (oidToString s.nextId)) := serialize_get_id d s.nextId hdid
    rw [heq, h2] at h1
    have h3 : oidToString s.nextId = oidToString m :=
      BVal.str.inj (Option.some.inj h1)
    have h4 : s.nextId = m :=
      oidToString_inj _ _ hwf.2.2.2.2 (lt_trans hmlt hwf.2.2.2.2) h3
    omega
  have hmatch : docMatches d (cityQuery (some r.city)) = true := by
    by_cases hc : r.city.isEmpty
    · simp [cityQuery, hc, docMatches]
    · simp [cityQuery, hc, docMatches, condMatches, hdcity]
  have hexp : list_models (some r.city) none (create_model r s).2 =
      ((s.model ++ [d]).filter
        (fun x => docMatches x (cityQuery (some r.city)))).map «_serialize» := by
    show ((s.model ++ [d]).filter
        (fun x => docMatches x (cityQuery (some r.city) ++ []))).map «_serialize» = _
    rw [List.append_nil]
  rw [hexp, List.filter_append]
  have hfd : [d].filter (fun x => docMatches x (cityQuery (some r.city))) = [d] := by
    simp [List.filter_cons, hmatch]
  rw [hfd, List.map_append, List.count_append]
  have hzero : ((s.model.filter
      (fun x => docMatches x (cityQuery (some r.city)))).map «_serialize»).count
        («_serialize» d) = 0 := by
    rw [List.count_eq_zero]
    intro hmem
    rcases List.mem_map.1 hmem with ⟨x, hx, hxe⟩
    exact hser_ne x (List.mem_of_mem_filter hx) hxe
  rw [hzero]
  simp

/-- Witness for C1: a minimal valid payload inserted into the sample
store. -/
theorem C1_create_then_list_witness :
    (create_model (ModelPayload.value { name := some "Mia", city := some "NY" })
      sampleStore).1 = oidToString sampleStore.nextId ∧
    ∃ d, (create_model
        (ModelPayload.value { name := some "Mia", city := some "NY" })
        sampleStore).2.model = sampleStore.model ++ [d] ∧
      docGet d "name" =
        some (.str (ModelPayload.value { name := some "Mia", city := some "NY" }).name) ∧
      docGet d "city" =
        some (.str (ModelPayload.value { name := some "Mia", city := some "NY" }).city) ∧
      (list_models
        (some (ModelPayload.value { name := some "Mia", city := some "NY" }).city)
        none
        (create_model (ModelPayload.value { name := some "Mia", city := some "NY" })
          sampleStore).2).count
        («_serialize» d) = 1 :=
  C1_create_then_list { name := some "Mia", city := some "NY" }
    (ModelPayload.value { name := some "Mia", city := some "NY" }) rfl
    sampleStore sampleStore_wf

/-! ### Seeding (C6) -/

theorem create_document_coll_self (s : Store) (c : Coll) (b : Doc) :
    ((create_document s c b).2).coll c =
      s.coll c ++ [("_id", BVal.oid s.nextId) ::
        (b ++ [("created_at", BVal.dt s.clock)])] := by
  cases c <;> rfl

theorem create_document_coll_other (s : Store) (c c' : Coll) (b : Doc)
    (hne : c' ≠ c) : ((create_document s c b).2).coll c' = s.coll c' := by
  cases c <;> cases c' <;> first | rfl | exact absurd rfl hne

theorem seedLoop_foldl_snd {α β : Type} (v : α → Except (List String) β)
    (t : β → Doc) (c : Coll) :
    ∀ (ps : List α) (n : Nat) (s : Store),
      (ps.foldl (fun acc p =>
        match v p with
        | .ok r => (acc.1 + 1, (create_document acc.2 c (t r)).2)
        | .error _ => acc) (n, s)).2 = (seedLoop v t c ps s).2 := by
  intro ps
  induction ps with
  | nil =>
      intro n s
      rfl
  | cons p ps ih =>
      intro n s
      unfold seedLoop
      simp only [List.foldl_cons]
      cases hv : v p with
      | ok r =>
          simp only [hv]
          exact (ih (n + 1) (create_document s c (t r)).2).trans
            ((ih (0 + 1) (create_document s c (t r)).2).symm)
      | error e =>
          simp only [hv]
          exact ih n s

theorem seedLoop_coll_length {α β : Type} (v : α → Except (List String) β)
    (t : β → Doc) (c : Coll) :
    ∀ (ps : List α) (s : Store),
      (((seedLoop v t c ps s).2).coll c).length =
        (s.coll c).length + (ps.filter (fun p => (v p).isOk)).length := by
  intro ps
  induction ps with
  | nil =>
      intro s
      simp [seedLoop]
  | cons p ps ih =>
      intro s
      unfold seedLoop
      simp only [List.foldl_cons]
      cases hv : v p with
      | ok r =>
          simp only [hv]
          rw [seedLoop_foldl_snd v t c ps (0 + 1) (create_document s c (t r)).2,
            ih, create_document_coll_self]
          simp [List.filter_cons, hv, Except.isOk, Except.toBool]
          omega
      | error e =>
          simp only [hv]
          show (((seedLoop v t c ps s).2).coll c).length = _
          rw [ih]
          simp [List.filter_cons, hv, Except.isOk, Except.toBool]

theorem seedLoop_coll_other {α β : Type} (v : α → Except (List String) β)
    (t : β → Doc) (c c' : Coll) (hne : c' ≠ c) :
    ∀ (ps : List α) (s : Store),
      ((seedLoop v t c ps s).2).coll c' = s.coll c' := by
  intro ps
  induction ps with
  | nil =>
      intro s
      rfl
  | cons p ps ih =>
      intro s
      unfold seedLoop
      simp only [List.foldl_cons]
      cases hv : v p with
      | ok r =>
          simp only [hv]
          rw [seedLoop_foldl_snd v t c ps (0 + 1) (create_document s c (t r)).2,
            ih, create_document_coll_other s c c' _ hne]
      | error e =>
          simp only [hv]
          show ((seedLoop v t c ps s).2).coll c' = s.coll c'
          exact ih s

theorem seed_clubs_club_length (s : Store) :
    ((seedLoop clubValidate ClubRecord.toDoc .club demo_clubs s).2).club.length =
      s.club.length + 6 := by
  have h := seedLoop_coll_length clubValidate ClubRecord.toDoc .club demo_clubs s
  have hc : (demo_clubs.filter (fun p => (clubValidate p).isOk)).length = 6 := by
    decide
  rw [hc] at h
  exact h

theorem seed_clubs_model (s : Store) :
    ((seedLoop clubValidate ClubRecord.toDoc .club demo_clubs s).2).model =
      s.model :=
  seedLoop_coll_other clubValidate ClubRecord.toDoc .club .model (by decide)
    demo_clubs s

theorem seed_clubs_gig (s : Store) :
    ((seedLoop clubValidate ClubRecord.toDoc .club demo_clubs s).2).gig =
      s.gig :=
  seedLoop_coll_other clubValidate ClubRecord.toDoc .club .gig (by decide)
    demo_clubs s

theorem seed_models_model_length (s : Store) :
    ((seedLoop modelValidate ModelRecord.toDoc .model demo_models s).2).model.length =
      s.model.length + 12 := by
  have h := seedLoop_coll_length modelValidate ModelRecord.toDoc .model demo_models s
  have hc : (demo_models.filter (fun p => (modelValidate p).isOk)).length = 12 := by
    decide
  rw [hc] at h
  exact h

theorem seed_models_club (s : Store) :
    ((seedLoop modelValidate ModelRecord.toDoc .model demo_models s).2).club =
      s.club :=
  seedLoop_coll_other modelValidate ModelRecord.toDoc .model .club (by decide)
    demo_models s

theorem seed_models_gig (s : Store) :
    ((seedLoop modelValidate ModelRecord.toDoc .model demo_models s).2).gig =
      s.gig :=
  seedLoop_coll_other modelValidate ModelRecord.toDoc .model .gig (by decide)
    demo_models s

theorem seed_gigs_gig_length (s : Store) :
    ((seedLoop gigValidate GigRecord.toDoc .gig demo_gigs s).2).gig.length =
      s.gig.length + 10 := by
  have h := seedLoop_coll_length gigValidate GigRecord.toDoc .gig demo_gigs s
  have hc : (demo_gigs.filter (fun p => (gigValidate p).isOk)).length = 10 := by
    decide
  rw [hc] at h
  exact h

theorem seed_gigs_club (s : Store) :
    ((seedLoop gigValidate GigRecord.toDoc .gig demo_gigs s).2).club = s.club :=
  seedLoop_coll_other gigValidate GigRecord.toDoc .gig .club (by decide)
    demo_gigs s

theorem seed_gigs_model (s : Store) :
    ((seedLoop gigValidate GigRecord.toDoc .gig demo_gigs s).2).model = s.model :=
  seedLoop_coll_other gigValidate GigRecord.toDoc .gig .model (by decide)
    demo_gigs s

theorem seed_demo_store_lengths (s : Store) :
    ((seed_demo s).2).club.length =
      s.club.length + (if s.club.length < 6 then 6 else 0) ∧
    ((seed_demo s).2).model.length =
      s.model.length + (if s.model.length < 12 then 12 else 0) ∧
    ((seed_demo s).2).gig.length =
      s.gig.length + (if s.gig.length < 10 then 10 else 0) := by
  by_cases h1 : s.club.length < 6 <;> by_cases h2 : s.model.length < 12 <;>
    by_cases h3 : s.gig.length < 10 <;>
      simp [seed_demo, h1, h2, h3, seed_clubs_club_length, seed_clubs_model,
        seed_clubs_gig, seed_models_model_length, seed_models_club,
        seed_models_gig, seed_gigs_gig_length, seed_gigs_club, seed_gigs_model]

theorem seed_demo_skip (s : Store) (h1 : ¬ s.club.length < 6)
    (h2 : ¬ s.model.length < 12) (h3 : ¬ s.gig.length < 10) :
    seed_demo s =
      (SeedResponse.mk s.model.length s.gig.length s.club.length 0 0 0
        s.model.length s.gig.length s.club.length, s) := by
  simp [seed_demo, h1, h2, h3]

/-- C6: once the per-collection thresholds (6 clubs, 12 models, 10 gigs)
are met — which any run of `POST /api/seed` guarantees — a further
invocation inserts no document: the store is unchanged, all created
counts are 0, and the totals do not increase beyond what the first run
reached. -/
theorem C6_seed_idempotent (s : Store) :
    6 ≤ ((seed_demo s).2).club.length ∧
    12 ≤ ((seed_demo s).2).model.length ∧
    10 ≤ ((seed_demo s).2).gig.length ∧
    (seed_demo (seed_demo s).2).2 = (seed_demo s).2 ∧
    (seed_demo (seed_demo s).2).1.clubs_created = 0 ∧
    (seed_demo (seed_demo s).2).1.models_created = 0 ∧
    (seed_demo (seed_demo s).2).1.gigs_created = 0 ∧
    (seed_demo (seed_demo s).2).1.total_clubs = ((seed_demo s).2).club.length ∧
    (seed_demo (seed_demo s).2).1.total_models = ((seed_demo s).2).model.length ∧
    (seed_demo (seed_demo s).2).1.total_gigs = ((seed_demo s).2).gig.length := by
  obtain ⟨hc, hm, hg⟩ := seed_demo_store_lengths s
  have h6 : 6 ≤ ((seed_demo s).2).club.length := by
    rw [hc]
    by_cases h : s.club.length < 6 <;> simp [h] <;> omega
  have h12 : 12 ≤ ((seed_demo s).2).model.length := by
    rw [hm]
    by_cases h : s.model.length < 12 <;> simp [h] <;> omega
  have h10 : 10 ≤ ((seed_demo s).2).gig.length := by
    rw [hg]
    by_cases h : s.gig.length < 10 <;> simp [h] <;> omega
  have hskip := seed_demo_skip (seed_demo s).2 (by omega) (by omega) (by omega)
  exact ⟨h6, h12, h10, by rw [hskip], by rw [hskip], by rw [hskip],
    by rw [hskip], by rw [hskip], by rw [hskip], by rw [hskip]⟩
